import Mathlib

/-!
# `matxHalf<T>`: the half-precision value wrapper of `include/matx/core/half.h`

A shallow embedding of the wrapper type, its constructors and conversions, its
arithmetic, comparison and compound-assignment operators, and its elementary
functions.

* The two 16-bit types (`__half`, `__nv_bfloat16`), `float`, the conversions
  between them and their arithmetic come from `cuda_fp16.h`, `cuda_bf16.h` and
  the compiler, none of which is part of `half.h`.  They are taken as a
  parameter, `HalfPlatform`; the device intrinsics and the `float` math
  functions are a second parameter, `HalfMath`.
* `#ifdef __CUDA_ARCH__` is the compilation pass: `CudaArch := Option Nat`,
  `none` for the host pass and `some n` for a device pass with
  `__CUDA_ARCH__ = n`.
* A function whose body calls itself is modelled with fuel: every call spends
  one unit and `none` means that the fuel ran out before a `return` was reached.
* A member function that may write `*this` returns a `MemberCall`: the state of
  the receiver after the call and the object the returned reference designates.
  A member that is ill-formed once instantiated has no outcome, `none`.
* Where a property is about the conversions themselves, the Formats are
  modelled from the spec (`Format`, `formatPlatform`).
-/

set_option linter.unusedVariables false

namespace matx

/-- The compilation pass: `none` when `__CUDA_ARCH__` is not defined (host),
`some n` when it is defined with value `n` (device). -/
abbrev CudaArch := Option Nat

/-- The declarations `half.h` uses but does not contain: the 16-bit type `T`
(`__half` or `__nv_bfloat16`), `float`, the two conversions, the `float`
operators of the host path and the native 16-bit operators of the device
path. -/
structure HalfPlatform where
  /-- The 16-bit type the wrapper is instantiated with, `T`. -/
  T : Type
  /-- The 32-bit type `float`. -/
  F : Type
  /-- The conversion `static_cast<float>(t)` of a 16-bit value. -/
  toFloat : T → F
  /-- The conversion `static_cast<T>(f)` (and `T(f)`) of a `float`. -/
  ofFloat : F → T
  /-- The `float` sum `f + g`. -/
  fadd : F → F → F
  /-- The `float` difference `f - g`. -/
  fsub : F → F → F
  /-- The `float` product `f * g`. -/
  fmul : F → F → F
  /-- The `float` quotient `f / g`. -/
  fdiv : F → F → F
  /-- The `float` negation `-f`. -/
  fneg : F → F
  /-- The `float` comparison `f == g`. -/
  feq : F → F → Bool
  /-- The `float` comparison `f < g`. -/
  flt : F → F → Bool
  /-- The `float` comparison `f > g`. -/
  fgt : F → F → Bool
  /-- The native 16-bit sum `s + t` of device code. -/
  hadd : T → T → T
  /-- The native 16-bit difference `s - t` of device code. -/
  hsub : T → T → T
  /-- The native 16-bit product `s * t` of device code. -/
  hmul : T → T → T
  /-- The native 16-bit quotient `s / t` of device code. -/
  hdiv : T → T → T
  /-- The native 16-bit negation `-t` of device code. -/
  hneg : T → T
  /-- The native 16-bit comparison `s == t` of device code. -/
  heq : T → T → Bool
  /-- The native 16-bit comparison `s < t` of device code. -/
  hlt : T → T → Bool
  /-- The native 16-bit comparison `s > t` of device code. -/
  hgt : T → T → Bool
  /-- The device expression `x + f` of a 16-bit `x` and a `float` `f`, as a
  `float`. -/
  haddf : T → F → F

/-- The wrapper `template <typename T> struct matxHalf`, whose only data member
is `T x`. -/
structure matxHalf (P : HalfPlatform) where
  /-- The stored 16-bit value, `T x`. -/
  x : P.T

/-- The outcome of a member function called on a receiver: the receiver after
the call, and the object that the returned reference designates. -/
structure MemberCall (P : HalfPlatform) where
  /-- The state of `*this` when the call has returned. -/
  receiver : matxHalf P
  /-- The object designated by the returned `matxHalf<T> &`. -/
  returned : matxHalf P

variable {P : HalfPlatform}

/-- The converting constructor `template <typename T2> matxHalf(const T2 &x_)`,
with member initialiser `x(static_cast<float>(x_))`; `cast` is
`static_cast<float>` on the source type `T2`. -/
def matxHalf.construct {T2 : Type} (cast : T2 → P.F) (x_ : T2) : matxHalf P :=
  ⟨P.ofFloat (cast x_)⟩

/-- The converting constructor at `T2 = float`: `static_cast<float>` is the
identity. -/
def matxHalf.ofFloat32 (x_ : P.F) : matxHalf P :=
  matxHalf.construct id x_

/-- The converting constructor at `T2 = T`, used by `matxHalf<T> tmp{rhs}` and
whenever a function returning `matxHalf<T>` returns a `T`. -/
def matxHalf.ofNative (x_ : P.T) : matxHalf P :=
  matxHalf.construct P.toFloat x_

/-- The conversion `operator float() const`: `static_cast<float>(x)`. -/
def matxHalf.toFloat32 (a : matxHalf P) : P.F :=
  P.toFloat a.x

/-- The assignment `template <typename T2> matxHalf<T> &operator=(const T2 &rhs)`:
`x = static_cast<float>(rhs); return *this;`.  Assigning a `float` to the
16-bit member is the conversion `ofFloat`. -/
def matxHalf.assign {T2 : Type} (cast : T2 → P.F) (self : matxHalf P) (rhs : T2) :
    MemberCall P :=
  let self1 : matxHalf P := ⟨P.ofFloat (cast rhs)⟩
  ⟨self1, self1⟩

/-! ## Wrapper/wrapper binary operators (`half.h` 546-612) -/

/-- The operator `operator+(const matxHalf<T> &lhs, const matxHalf<T> &rhs)`.  Both
branches return a `T`, which the return type converts with the converting
constructor. -/
def operatorAdd (arch : CudaArch) (lhs rhs : matxHalf P) : matxHalf P :=
  if arch.isSome then
    matxHalf.ofNative (P.hadd lhs.x rhs.x)
  else
    matxHalf.ofNative (P.ofFloat (P.fadd lhs.toFloat32 rhs.toFloat32))

/-- The operator `operator-(const matxHalf<T> &lhs, const matxHalf<T> &rhs)`. -/
def operatorSub (arch : CudaArch) (lhs rhs : matxHalf P) : matxHalf P :=
  if arch.isSome then
    matxHalf.ofNative (P.hsub lhs.x rhs.x)
  else
    matxHalf.ofNative (P.ofFloat (P.fsub lhs.toFloat32 rhs.toFloat32))

/-- The operator `operator*(const matxHalf<T> &lhs, const matxHalf<T> &rhs)`. -/
def operatorMul (arch : CudaArch) (lhs rhs : matxHalf P) : matxHalf P :=
  if arch.isSome then
    matxHalf.ofNative (P.hmul lhs.x rhs.x)
  else
    matxHalf.ofNative (P.ofFloat (P.fmul (P.toFloat lhs.x) (P.toFloat rhs.x)))

/-- The operator `operator/(const matxHalf<T> &lhs, const matxHalf<T> &rhs)`. -/
def operatorDiv (arch : CudaArch) (lhs rhs : matxHalf P) : matxHalf P :=
  if arch.isSome then
    matxHalf.ofNative (P.hdiv lhs.x rhs.x)
  else
    matxHalf.ofNative (P.ofFloat (P.fdiv (P.toFloat lhs.x) (P.toFloat rhs.x)))

/-! ## Mixed wrapper/native binary operators (`half.h` 235-353)

Each body is `matxHalf<T> tmp{<native operand>}; return lhs OP rhs;`.  The
returned expression has the operand types of the enclosing function: a
`matxHalf<T>` and a `T`.  Overload resolution at `lhs OP rhs`:

* the wrapper/wrapper template `(const matxHalf<T>&, const matxHalf<T>&)` is not
  a candidate, because template argument deduction does not look through the
  converting constructor and so fails on the `T` operand;
* the mixed template with the operands the other way round fails deduction in
  the same way;
* the enclosing template itself deduces `T` from both operands and binds both
  references directly (an exact match);
* every other candidate (a built-in operator or the platform's operator on two
  `T`) needs a user-defined conversion of the wrapper operand and is worse.

So `lhs OP rhs` is a call of the enclosing function on the same two arguments,
and `tmp` is never used. -/

/-- The operator `operator+(const matxHalf<T> &lhs, const T &rhs)`. -/
def operatorAddHN : Nat → matxHalf P → P.T → Option (matxHalf P)
  | 0, _, _ => none
  | fuel + 1, lhs, rhs =>
    let tmp : matxHalf P := matxHalf.ofNative rhs
    operatorAddHN fuel lhs rhs

/-- The operator `operator+(const T &lhs, const matxHalf<T> &rhs)`. -/
def operatorAddNH : Nat → P.T → matxHalf P → Option (matxHalf P)
  | 0, _, _ => none
  | fuel + 1, lhs, rhs =>
    let tmp : matxHalf P := matxHalf.ofNative lhs
    operatorAddNH fuel lhs rhs

/-- The operator `operator-(const matxHalf<T> &lhs, const T &rhs)`. -/
def operatorSubHN : Nat → matxHalf P → P.T → Option (matxHalf P)
  | 0, _, _ => none
  | fuel + 1, lhs, rhs =>
    let tmp : matxHalf P := matxHalf.ofNative rhs
    operatorSubHN fuel lhs rhs

/-- The operator `operator-(const T &lhs, const matxHalf<T> &rhs)`. -/
def operatorSubNH : Nat → P.T → matxHalf P → Option (matxHalf P)
  | 0, _, _ => none
  | fuel + 1, lhs, rhs =>
    let tmp : matxHalf P := matxHalf.ofNative lhs
    operatorSubNH fuel lhs rhs

/-- The operator `operator*(const matxHalf<T> &lhs, const T &rhs)`. -/
def operatorMulHN : Nat → matxHalf P → P.T → Option (matxHalf P)
  | 0, _, _ => none
  | fuel + 1, lhs, rhs =>
    let tmp : matxHalf P := matxHalf.ofNative rhs
    operatorMulHN fuel lhs rhs

/-- The operator `operator*(const T &lhs, const matxHalf<T> &rhs)`. -/
def operatorMulNH : Nat → P.T → matxHalf P → Option (matxHalf P)
  | 0, _, _ => none
  | fuel + 1, lhs, rhs =>
    let tmp : matxHalf P := matxHalf.ofNative lhs
    operatorMulNH fuel lhs rhs

/-- The operator `operator/(const matxHalf<T> &lhs, const T &rhs)`. -/
def operatorDivHN : Nat → matxHalf P → P.T → Option (matxHalf P)
  | 0, _, _ => none
  | fuel + 1, lhs, rhs =>
    let tmp : matxHalf P := matxHalf.ofNative rhs
    operatorDivHN fuel lhs rhs

/-- The operator `operator/(const T &lhs, const matxHalf<T> &rhs)`. -/
def operatorDivNH : Nat → P.T → matxHalf P → Option (matxHalf P)
  | 0, _, _ => none
  | fuel + 1, lhs, rhs =>
    let tmp : matxHalf P := matxHalf.ofNative lhs
    operatorDivNH fuel lhs rhs

/-! ## Negation and comparisons (`half.h` 362-536) -/

/-- The operator `operator-(const matxHalf<T> &l)`: `return {-l.x};` on the device
(a `T`, converted by the constructor at `T2 = T`) and
`return {-static_cast<float>(l.x)};` on the host (a `float`, converted by the
constructor at `T2 = float`). -/
def operatorNeg (arch : CudaArch) (l : matxHalf P) : matxHalf P :=
  if arch.isSome then
    matxHalf.ofNative (P.hneg l.x)
  else
    matxHalf.ofFloat32 (P.fneg (P.toFloat l.x))

/-- The operator `operator==(const matxHalf<T> &lhs, const matxHalf<T> &rhs)`. -/
def operatorEq (arch : CudaArch) (lhs rhs : matxHalf P) : Bool :=
  if arch.isSome then
    P.heq lhs.x rhs.x
  else
    P.feq (P.toFloat lhs.x) (P.toFloat rhs.x)

/-- The operator `operator==(const matxHalf<T> &lhs, const T &rhs)`:
`matxHalf<T> tmp{rhs}; return lhs == tmp;`. -/
def operatorEqHN (arch : CudaArch) (lhs : matxHalf P) (rhs : P.T) : Bool :=
  let tmp : matxHalf P := matxHalf.ofNative rhs
  operatorEq arch lhs tmp

/-- The operator `operator==(const T &lhs, const matxHalf<T> &rhs)`:
`matxHalf<T> tmp{lhs}; return rhs == tmp;`. -/
def operatorEqNH (arch : CudaArch) (lhs : P.T) (rhs : matxHalf P) : Bool :=
  let tmp : matxHalf P := matxHalf.ofNative lhs
  operatorEq arch rhs tmp

/-- The operator `operator!=(const matxHalf<T> &lhs, const matxHalf<T> &rhs)`:
`return !(lhs == rhs);`. -/
def operatorNe (arch : CudaArch) (lhs rhs : matxHalf P) : Bool :=
  !(operatorEq arch lhs rhs)

/-- The operator `operator!=(const matxHalf<T> &lhs, const T &rhs)`:
`matxHalf<T> tmp{rhs}; return !(lhs == tmp);`. -/
def operatorNeHN (arch : CudaArch) (lhs : matxHalf P) (rhs : P.T) : Bool :=
  let tmp : matxHalf P := matxHalf.ofNative rhs
  !(operatorEq arch lhs tmp)

/-- The operator `operator!=(const T &lhs, const matxHalf<T> &rhs)`:
`matxHalf<T> tmp{lhs}; return !(rhs == tmp);`. -/
def operatorNeNH (arch : CudaArch) (lhs : P.T) (rhs : matxHalf P) : Bool :=
  let tmp : matxHalf P := matxHalf.ofNative lhs
  !(operatorEq arch rhs tmp)

/-- The operator `operator>(const matxHalf<T> &lhs, const matxHalf<T> &rhs)`. -/
def operatorGt (arch : CudaArch) (lhs rhs : matxHalf P) : Bool :=
  if arch.isSome then
    P.hgt lhs.x rhs.x
  else
    P.fgt (P.toFloat lhs.x) (P.toFloat rhs.x)

/-- The operator `operator<(const matxHalf<T> &lhs, const matxHalf<T> &rhs)`. -/
def operatorLt (arch : CudaArch) (lhs rhs : matxHalf P) : Bool :=
  if arch.isSome then
    P.hlt lhs.x rhs.x
  else
    P.flt (P.toFloat lhs.x) (P.toFloat rhs.x)

/-- The operator `operator<=(const matxHalf<T> &lhs, const matxHalf<T> &rhs)`:
`return lhs < rhs || lhs == rhs;`. -/
def operatorLe (arch : CudaArch) (lhs rhs : matxHalf P) : Bool :=
  operatorLt arch lhs rhs || operatorEq arch lhs rhs

/-- The operator `operator>=(const matxHalf<T> &lhs, const matxHalf<T> &rhs)`:
`return lhs > rhs || lhs == rhs;`. -/
def operatorGe (arch : CudaArch) (lhs rhs : matxHalf P) : Bool :=
  operatorGt arch lhs rhs || operatorEq arch lhs rhs

/-! ## Compound assignment (`half.h` 141-222) -/

/-- The member `operator+=(const matxHalf<X> &rhs)` at `X = T`:
`*this = *this + rhs; return *this;`.  The assignment is the defaulted copy
assignment, preferred to the assignment template. -/
def matxHalf.operatorAddAssign (arch : CudaArch) (self rhs : matxHalf P) : MemberCall P :=
  let self1 := operatorAdd arch self rhs
  ⟨self1, self1⟩

/-- The member `operator-=(const matxHalf<X> &rhs)` at `X = T`:
`*this = *this - rhs; return *this;`. -/
def matxHalf.operatorSubAssign (arch : CudaArch) (self rhs : matxHalf P) : MemberCall P :=
  let self1 := operatorSub arch self rhs
  ⟨self1, self1⟩

/-- The member `operator*=(const matxHalf<X> &rhs)` at `X = T`:
`*this = *this * rhs; return *this;`. -/
def matxHalf.operatorMulAssign (arch : CudaArch) (self rhs : matxHalf P) : MemberCall P :=
  let self1 := operatorMul arch self rhs
  ⟨self1, self1⟩

/-- The member `operator/=(const matxHalf<X> &rhs)` at `X = T`:
`*this = *this / rhs; return *this;`. -/
def matxHalf.operatorDivAssign (arch : CudaArch) (self rhs : matxHalf P) : MemberCall P :=
  let self1 := operatorDiv arch self rhs
  ⟨self1, self1⟩

/-- What a `return` statement hands to a function whose return type is the
reference `matxHalf<T> &`: an lvalue such as `*this`, or a braced initialiser
list `{v}`, from which a temporary `matxHalf<T>` would have to be built. -/
inductive ReturnOperand (P : HalfPlatform) where
  | lvalue (object : matxHalf P)
  | braced (temporary : matxHalf P)

/-- The object that a returned `matxHalf<T> &` designates.  The reference is to
non-const: it binds to an lvalue, and it cannot bind to the temporary of a
braced list.  A member that returns a braced list is ill-formed once it is
instantiated, no program that calls it compiles, and the call has no outcome
(`none`). -/
def ReturnOperand.bindReference : ReturnOperand P → Option (matxHalf P)
  | .lvalue object => some object
  | .braced _ => none

/-- The operand of the `return` statement of `operator+=(float f) const`:
`{x + f}` on the device and `{static_cast<T>(static_cast<float>(x) + f)}` on
the host. -/
def matxHalf.operatorAddAssignFloatOperand (arch : CudaArch) (self : matxHalf P) (f : P.F) :
    ReturnOperand P :=
  if arch.isSome then
    .braced (matxHalf.ofFloat32 (P.haddf self.x f))
  else
    .braced (matxHalf.ofNative (P.ofFloat (P.fadd (P.toFloat self.x) f)))

/-- The member `matxHalf<T> &operator+=(float f) const`, whose body is one
`return` statement.  The member is `const` and does not write `x`; its result
is the reference bound to the operand of `return`. -/
def matxHalf.operatorAddAssignFloat (arch : CudaArch) (self : matxHalf P) (f : P.F) :
    Option (MemberCall P) :=
  (self.operatorAddAssignFloatOperand arch f).bindReference.map fun object => ⟨self, object⟩

/-- The operand of the `return` statement of `operator-=(float f) const`:
`{x + f}` on the device and `{static_cast<T>(static_cast<float>(x) + f)}` on
the host. -/
def matxHalf.operatorSubAssignFloatOperand (arch : CudaArch) (self : matxHalf P) (f : P.F) :
    ReturnOperand P :=
  if arch.isSome then
    .braced (matxHalf.ofFloat32 (P.haddf self.x f))
  else
    .braced (matxHalf.ofNative (P.ofFloat (P.fadd (P.toFloat self.x) f)))

/-- The member `matxHalf<T> &operator-=(float f) const`, whose body is one
`return` statement.  The member is `const` and does not write `x`; its result
is the reference bound to the operand of `return`. -/
def matxHalf.operatorSubAssignFloat (arch : CudaArch) (self : matxHalf P) (f : P.F) :
    Option (MemberCall P) :=
  (self.operatorSubAssignFloatOperand arch f).bindReference.map fun object => ⟨self, object⟩

/-! ## Elementary functions (`half.h` 621-1313)

The device intrinsics (`__habs`, `hsqrt`, ...) and the `float` functions of
`cuda::std` are declared outside `half.h`; they are taken as a second
parameter, `HalfMath`.  A function template with an explicit specialisation
`template <>` for `matxHalf<__nv_bfloat16>` is two definitions: the primary
template (used for `matxHalf<__half>`) under the source name, and the
specialisation under that name followed by `_bf16`.  Every definition takes
the compilation pass `arch`, whether or not its source consults it. -/

/-- The device intrinsics on the 16-bit type that `half.h` calls (`habs` is
`__habs`). -/
inductive Intrinsic where
  | habs | hsqrt | hrsqrt | hlog | hlog10 | hlog2 | hexp | hfloor | hceil | hrint | hsin
  | hcos
  deriving DecidableEq

/-- The `float` functions of one argument that `half.h` calls: those of
`cuda::std`, and `rsqrt` for the global `::rsqrt`. -/
inductive StdFn where
  | abs | sqrt | rsqrt | log | log10 | log2 | exp | floor | ceil | round | sin | cos | tan
  | asin | acos | atan | asinh | acosh | atanh | sinh | cosh | tanh
  deriving DecidableEq

/-- The math declarations `half.h` uses but does not contain. -/
structure HalfMath (P : HalfPlatform) where
  /-- The value of a device intrinsic on a 16-bit operand. -/
  intrinsic : Intrinsic → P.T → P.T
  /-- The device intrinsic `__hisinf`, which returns an `int`. -/
  hisinf : P.T → Int
  /-- The value of a `float` function of one argument. -/
  std : StdFn → P.F → P.F
  /-- The function `cuda::std::atan2` on two `float`s. -/
  atan2 : P.F → P.F → P.F
  /-- The function `cuda::std::isinf` on a `float`. -/
  isinf : P.F → Bool
  /-- The literal `1.f`. -/
  one : P.F
  /-- The type `__nv_bfloat16`. -/
  B : Type
  /-- The conversion `static_cast<__nv_bfloat16>(f)` of a `float`. -/
  ofFloatB : P.F → B
  /-- The conversion `static_cast<float>(b)` of a `__nv_bfloat16`. -/
  toFloatB : B → P.F

/-- The value of `__CUDA_ARCH__` inside `#if`: an identifier that is not defined
counts as `0`. -/
def cudaArchValue (arch : CudaArch) : Nat :=
  arch.getD 0

/-- The primary template `abs(const matxHalf<T> &x)`: `return __habs(x.x);` on the
device and `return static_cast<T>(cuda::std::abs(static_cast<float>(x.x)));` on
the host. -/
def abs (M : HalfMath P) (arch : CudaArch) (x : matxHalf P) : matxHalf P :=
  if arch.isSome then
    matxHalf.ofNative (M.intrinsic .habs x.x)
  else
    matxHalf.ofNative (P.ofFloat (M.std .abs (P.toFloat x.x)))

/-- The specialisation `abs(const matxHalf<__nv_bfloat16> &x)`, where `P` is the
`__nv_bfloat16` platform: `return __habs(x.x);` under `#if __CUDA_ARCH__ >= 800`,
otherwise
`return static_cast<__nv_bfloat16>(cuda::std::abs(static_cast<float>(x.x)));`. -/
def abs_bf16 (M : HalfMath P) (arch : CudaArch) (x : matxHalf P) : matxHalf P :=
  if 800 ≤ cudaArchValue arch then
    matxHalf.ofNative (M.intrinsic .habs x.x)
  else
    matxHalf.ofNative (P.ofFloat (M.std .abs (P.toFloat x.x)))

/-- The primary template `log(const matxHalf<T> &x)`: `return hlog(x.x);` on the
device and `return static_cast<T>(cuda::std::log(static_cast<float>(x.x)));` on
the host. -/
def log (M : HalfMath P) (arch : CudaArch) (x : matxHalf P) : matxHalf P :=
  if arch.isSome then
    matxHalf.ofNative (M.intrinsic .hlog x.x)
  else
    matxHalf.ofNative (P.ofFloat (M.std .log (P.toFloat x.x)))

/-- The specialisation `log(const matxHalf<__nv_bfloat16> &x)`, where `P` is the
`__nv_bfloat16` platform: `return hlog(x.x);` under `#if __CUDA_ARCH__ >= 800`,
otherwise
`return static_cast<__nv_bfloat16>(cuda::std::log(static_cast<float>(x.x)));`. -/
def log_bf16 (M : HalfMath P) (arch : CudaArch) (x : matxHalf P) : matxHalf P :=
  if 800 ≤ cudaArchValue arch then
    matxHalf.ofNative (M.intrinsic .hlog x.x)
  else
    matxHalf.ofNative (P.ofFloat (M.std .log (P.toFloat x.x)))

/-- The primary template `sqrt(const matxHalf<T> &x)`: `return hsqrt(x.x);` on the
device and `return static_cast<T>(cuda::std::sqrt(static_cast<float>(x.x)));` on
the host. -/
def sqrt (M : HalfMath P) (arch : CudaArch) (x : matxHalf P) : matxHalf P :=
  if arch.isSome then
    matxHalf.ofNative (M.intrinsic .hsqrt x.x)
  else
    matxHalf.ofNative (P.ofFloat (M.std .sqrt (P.toFloat x.x)))

/-- The specialisation `sqrt(const matxHalf<__nv_bfloat16> &x)`, where `P` is the
`__nv_bfloat16` platform: `return hsqrt(x.x);` under `#if __CUDA_ARCH__ >= 800`,
otherwise
`return static_cast<__nv_bfloat16>(cuda::std::sqrt(static_cast<float>(x.x)));`. -/
def sqrt_bf16 (M : HalfMath P) (arch : CudaArch) (x : matxHalf P) : matxHalf P :=
  if 800 ≤ cudaArchValue arch then
    matxHalf.ofNative (M.intrinsic .hsqrt x.x)
  else
    matxHalf.ofNative (P.ofFloat (M.std .sqrt (P.toFloat x.x)))

/-- The primary template `rsqrt(const matxHalf<T> &x)`: `return hrsqrt(x.x);` on
the device; on the host
`return static_cast<__nv_bfloat16>(::rsqrt(static_cast<float>(x.x)));` under
`#ifdef __CUDACC__` (`cudacc`) and
`return static_cast<__nv_bfloat16>(1.f / cuda::std::sqrt(static_cast<float>(x.x)));`
otherwise.  The host branches return a `__nv_bfloat16` whatever `T` is, and
the return type converts it with the converting constructor at
`T2 = __nv_bfloat16`. -/
def rsqrt (M : HalfMath P) (cudacc : Bool) (arch : CudaArch) (x : matxHalf P) : matxHalf P :=
  if arch.isSome then
    matxHalf.ofNative (M.intrinsic .hrsqrt x.x)
  else if cudacc then
    matxHalf.construct M.toFloatB (M.ofFloatB (M.std .rsqrt (P.toFloat x.x)))
  else
    matxHalf.construct M.toFloatB (M.ofFloatB (P.fdiv M.one (M.std .sqrt (P.toFloat x.x))))

/-- The specialisation `rsqrt(const matxHalf<__nv_bfloat16> &x)`, where `P` is the
`__nv_bfloat16` platform: `return hrsqrt(x.x);` under `#if __CUDA_ARCH__ >= 800`;
otherwise `return static_cast<__nv_bfloat16>(::rsqrt(static_cast<float>(x.x)));`
under `#ifdef __CUDACC__` and
`return static_cast<__nv_bfloat16>(1.f / cuda::std::sqrt(static_cast<float>(x.x)));`
without it. -/
def rsqrt_bf16 (M : HalfMath P) (cudacc : Bool) (arch : CudaArch) (x : matxHalf P) :
    matxHalf P :=
  if 800 ≤ cudaArchValue arch then
    matxHalf.ofNative (M.intrinsic .hrsqrt x.x)
  else if cudacc then
    matxHalf.ofNative (P.ofFloat (M.std .rsqrt (P.toFloat x.x)))
  else
    matxHalf.ofNative (P.ofFloat (P.fdiv M.one (M.std .sqrt (P.toFloat x.x))))

/-- The primary template `int isinf(const matxHalf<T> &x)`: `return __hisinf(x.x);`
on the device and
`return static_cast<int>(cuda::std::isinf(static_cast<float>(x.x)));` on the
host. -/
def isinf (M : HalfMath P) (arch : CudaArch) (x : matxHalf P) : Int :=
  if arch.isSome then
    M.hisinf x.x
  else
    if M.isinf (P.toFloat x.x) then 1 else 0

/-- The specialisation `int isinf(const matxHalf<__nv_bfloat16> &x)`:
`return __hisinf(x.x);` under `#if __CUDA_ARCH__ >= 800`, otherwise
`return static_cast<int>(cuda::std::isinf(static_cast<float>(x.x)));`. -/
def isinf_bf16 (M : HalfMath P) (arch : CudaArch) (x : matxHalf P) : Int :=
  if 800 ≤ cudaArchValue arch then
    M.hisinf x.x
  else
    if M.isinf (P.toFloat x.x) then 1 else 0

/-- The primary template `log10(const matxHalf<T> &x)`: `return hlog10(x.x);` on the
device and `return static_cast<T>(cuda::std::log10(static_cast<float>(x.x)));` on
the host. -/
def log10 (M : HalfMath P) (arch : CudaArch) (x : matxHalf P) : matxHalf P :=
  if arch.isSome then
    matxHalf.ofNative (M.intrinsic .hlog10 x.x)
  else
    matxHalf.ofNative (P.ofFloat (M.std .log10 (P.toFloat x.x)))

/-- The specialisation `log10(const matxHalf<__nv_bfloat16> &x)`, where `P` is the
`__nv_bfloat16` platform: `return hlog10(x.x);` under `#if __CUDA_ARCH__ >= 800`,
otherwise
`return static_cast<__nv_bfloat16>(cuda::std::log10(static_cast<float>(x.x)));`. -/
def log10_bf16 (M : HalfMath P) (arch : CudaArch) (x : matxHalf P) : matxHalf P :=
  if 800 ≤ cudaArchValue arch then
    matxHalf.ofNative (M.intrinsic .hlog10 x.x)
  else
    matxHalf.ofNative (P.ofFloat (M.std .log10 (P.toFloat x.x)))

/-- The primary template `log2(const matxHalf<T> &x)`: `return hlog2(x.x);` on the
device and `return static_cast<T>(cuda::std::log2(static_cast<float>(x.x)));` on
the host. -/
def log2 (M : HalfMath P) (arch : CudaArch) (x : matxHalf P) : matxHalf P :=
  if arch.isSome then
    matxHalf.ofNative (M.intrinsic .hlog2 x.x)
  else
    matxHalf.ofNative (P.ofFloat (M.std .log2 (P.toFloat x.x)))

/-- The specialisation `log2(const matxHalf<__nv_bfloat16> &x)`, where `P` is the
`__nv_bfloat16` platform: `return hlog2(x.x);` under `#if __CUDA_ARCH__ >= 800`,
otherwise
`return static_cast<__nv_bfloat16>(cuda::std::log2(static_cast<float>(x.x)));`. -/
def log2_bf16 (M : HalfMath P) (arch : CudaArch) (x : matxHalf P) : matxHalf P :=
  if 800 ≤ cudaArchValue arch then
    matxHalf.ofNative (M.intrinsic .hlog2 x.x)
  else
    matxHalf.ofNative (P.ofFloat (M.std .log2 (P.toFloat x.x)))

/-- The primary template `exp(const matxHalf<T> &x)`: `return hexp(x.x);` on the
device and `return static_cast<T>(cuda::std::exp(static_cast<float>(x.x)));` on
the host. -/
def exp (M : HalfMath P) (arch : CudaArch) (x : matxHalf P) : matxHalf P :=
  if arch.isSome then
    matxHalf.ofNative (M.intrinsic .hexp x.x)
  else
    matxHalf.ofNative (P.ofFloat (M.std .exp (P.toFloat x.x)))

/-- The specialisation `exp(const matxHalf<__nv_bfloat16> &x)`, where `P` is the
`__nv_bfloat16` platform: `return hexp(x.x);` under `#if __CUDA_ARCH__ >= 800`,
otherwise
`return static_cast<__nv_bfloat16>(cuda::std::exp(static_cast<float>(x.x)));`. -/
def exp_bf16 (M : HalfMath P) (arch : CudaArch) (x : matxHalf P) : matxHalf P :=
  if 800 ≤ cudaArchValue arch then
    matxHalf.ofNative (M.intrinsic .hexp x.x)
  else
    matxHalf.ofNative (P.ofFloat (M.std .exp (P.toFloat x.x)))

/-- The primary template `floor(const matxHalf<T> &x)`: `return hfloor(x.x);` on the
device and `return static_cast<T>(cuda::std::floor(static_cast<float>(x.x)));` on
the host. -/
def floor (M : HalfMath P) (arch : CudaArch) (x : matxHalf P) : matxHalf P :=
  if arch.isSome then
    matxHalf.ofNative (M.intrinsic .hfloor x.x)
  else
    matxHalf.ofNative (P.ofFloat (M.std .floor (P.toFloat x.x)))

/-- The specialisation `floor(const matxHalf<__nv_bfloat16> &x)`, where `P` is the
`__nv_bfloat16` platform: `return hfloor(x.x);` under `#if __CUDA_ARCH__ >= 800`,
otherwise
`return static_cast<__nv_bfloat16>(cuda::std::floor(static_cast<float>(x.x)));`. -/
def floor_bf16 (M : HalfMath P) (arch : CudaArch) (x : matxHalf P) : matxHalf P :=
  if 800 ≤ cudaArchValue arch then
    matxHalf.ofNative (M.intrinsic .hfloor x.x)
  else
    matxHalf.ofNative (P.ofFloat (M.std .floor (P.toFloat x.x)))

/-- The primary template `ceil(const matxHalf<T> &x)`: `return hceil(x.x);` on the
device and `return static_cast<T>(cuda::std::ceil(static_cast<float>(x.x)));` on
the host. -/
def ceil (M : HalfMath P) (arch : CudaArch) (x : matxHalf P) : matxHalf P :=
  if arch.isSome then
    matxHalf.ofNative (M.intrinsic .hceil x.x)
  else
    matxHalf.ofNative (P.ofFloat (M.std .ceil (P.toFloat x.x)))

/-- The specialisation `ceil(const matxHalf<__nv_bfloat16> &x)`, where `P` is the
`__nv_bfloat16` platform: `return hceil(x.x);` under `#if __CUDA_ARCH__ >= 800`,
otherwise
`return static_cast<__nv_bfloat16>(cuda::std::ceil(static_cast<float>(x.x)));`. -/
def ceil_bf16 (M : HalfMath P) (arch : CudaArch) (x : matxHalf P) : matxHalf P :=
  if 800 ≤ cudaArchValue arch then
    matxHalf.ofNative (M.intrinsic .hceil x.x)
  else
    matxHalf.ofNative (P.ofFloat (M.std .ceil (P.toFloat x.x)))

/-- The primary template `round(const matxHalf<T> &x)`: `return hrint(x.x);` on the
device and `return static_cast<T>(cuda::std::round(static_cast<float>(x.x)));` on
the host. -/
def round (M : HalfMath P) (arch : CudaArch) (x : matxHalf P) : matxHalf P :=
  if arch.isSome then
    matxHalf.ofNative (M.intrinsic .hrint x.x)
  else
    matxHalf.ofNative (P.ofFloat (M.std .round (P.toFloat x.x)))

/-- The specialisation `round(const matxHalf<__nv_bfloat16> &x)`, where `P` is the
`__nv_bfloat16` platform: `return hrint(x.x);` under `#if __CUDA_ARCH__ >= 800`,
otherwise
`return static_cast<__nv_bfloat16>(cuda::std::round(static_cast<float>(x.x)));`. -/
def round_bf16 (M : HalfMath P) (arch : CudaArch) (x : matxHalf P) : matxHalf P :=
  if 800 ≤ cudaArchValue arch then
    matxHalf.ofNative (M.intrinsic .hrint x.x)
  else
    matxHalf.ofNative (P.ofFloat (M.std .round (P.toFloat x.x)))

/-- The primary template `sin(const matxHalf<T> &x)`: `return hsin(x.x);` on the
device and `return static_cast<T>(cuda::std::sin(static_cast<float>(x.x)));` on
the host. -/
def sin (M : HalfMath P) (arch : CudaArch) (x : matxHalf P) : matxHalf P :=
  if arch.isSome then
    matxHalf.ofNative (M.intrinsic .hsin x.x)
  else
    matxHalf.ofNative (P.ofFloat (M.std .sin (P.toFloat x.x)))

/-- The specialisation `sin(const matxHalf<__nv_bfloat16> &x)`, where `P` is the
`__nv_bfloat16` platform: `return hsin(x.x);` under `#if __CUDA_ARCH__ >= 800`,
otherwise
`return static_cast<__nv_bfloat16>(cuda::std::sin(static_cast<float>(x.x)));`. -/
def sin_bf16 (M : HalfMath P) (arch : CudaArch) (x : matxHalf P) : matxHalf P :=
  if 800 ≤ cudaArchValue arch then
    matxHalf.ofNative (M.intrinsic .hsin x.x)
  else
    matxHalf.ofNative (P.ofFloat (M.std .sin (P.toFloat x.x)))

/-- The primary template `cos(const matxHalf<T> &x)`: `return hcos(x.x);` on the
device and `return static_cast<T>(cuda::std::cos(static_cast<float>(x.x)));` on
the host. -/
def cos (M : HalfMath P) (arch : CudaArch) (x : matxHalf P) : matxHalf P :=
  if arch.isSome then
    matxHalf.ofNative (M.intrinsic .hcos x.x)
  else
    matxHalf.ofNative (P.ofFloat (M.std .cos (P.toFloat x.x)))

/-- The specialisation `cos(const matxHalf<__nv_bfloat16> &x)`, where `P` is the
`__nv_bfloat16` platform: `return hcos(x.x);` under `#if __CUDA_ARCH__ >= 800`,
otherwise
`return static_cast<__nv_bfloat16>(cuda::std::cos(static_cast<float>(x.x)));`. -/
def cos_bf16 (M : HalfMath P) (arch : CudaArch) (x : matxHalf P) : matxHalf P :=
  if 800 ≤ cudaArchValue arch then
    matxHalf.ofNative (M.intrinsic .hcos x.x)
  else
    matxHalf.ofNative (P.ofFloat (M.std .cos (P.toFloat x.x)))

/-- The template `tan(const matxHalf<T> &x)`, which has no conditional
compilation and no specialisation:
`return static_cast<T>(cuda::std::tan(static_cast<float>(x.x)));`. -/
def tan (M : HalfMath P) (arch : CudaArch) (x : matxHalf P) : matxHalf P :=
  matxHalf.ofNative (P.ofFloat (M.std .tan (P.toFloat x.x)))

/-- The template `asin(const matxHalf<T> &x)`, which has no conditional
compilation and no specialisation:
`return static_cast<T>(cuda::std::asin(static_cast<float>(x.x)));`. -/
def asin (M : HalfMath P) (arch : CudaArch) (x : matxHalf P) : matxHalf P :=
  matxHalf.ofNative (P.ofFloat (M.std .asin (P.toFloat x.x)))

/-- The template `acos(const matxHalf<T> &x)`, which has no conditional
compilation and no specialisation:
`return static_cast<T>(cuda::std::acos(static_cast<float>(x.x)));`. -/
def acos (M : HalfMath P) (arch : CudaArch) (x : matxHalf P) : matxHalf P :=
  matxHalf.ofNative (P.ofFloat (M.std .acos (P.toFloat x.x)))

/-- The template `atan(const matxHalf<T> &x)`, which has no conditional
compilation and no specialisation:
`return static_cast<T>(cuda::std::atan(static_cast<float>(x.x)));`. -/
def atan (M : HalfMath P) (arch : CudaArch) (x : matxHalf P) : matxHalf P :=
  matxHalf.ofNative (P.ofFloat (M.std .atan (P.toFloat x.x)))

/-- The template `atan2(const matxHalf<T> x, const matxHalf<T> y)`, which has no
conditional compilation and no specialisation: `return static_cast<T>(
cuda::std::atan2(static_cast<float>(x.x), static_cast<float>(y.x)));`. -/
def atan2 (M : HalfMath P) (arch : CudaArch) (x y : matxHalf P) : matxHalf P :=
  matxHalf.ofNative (P.ofFloat (M.atan2 (P.toFloat x.x) (P.toFloat y.x)))

/-- The template `asinh(const matxHalf<T> &x)`, which has no conditional
compilation and no specialisation:
`return static_cast<T>(cuda::std::asinh(static_cast<float>(x.x)));`. -/
def asinh (M : HalfMath P) (arch : CudaArch) (x : matxHalf P) : matxHalf P :=
  matxHalf.ofNative (P.ofFloat (M.std .asinh (P.toFloat x.x)))

/-- The template `acosh(const matxHalf<T> &x)`, which has no conditional
compilation and no specialisation:
`return static_cast<T>(cuda::std::acosh(static_cast<float>(x.x)));`. -/
def acosh (M : HalfMath P) (arch : CudaArch) (x : matxHalf P) : matxHalf P :=
  matxHalf.ofNative (P.ofFloat (M.std .acosh (P.toFloat x.x)))

/-- The template `atanh(const matxHalf<T> &x)`, which has no conditional
compilation and no specialisation:
`return static_cast<T>(cuda::std::atanh(static_cast<float>(x.x)));`. -/
def atanh (M : HalfMath P) (arch : CudaArch) (x : matxHalf P) : matxHalf P :=
  matxHalf.ofNative (P.ofFloat (M.std .atanh (P.toFloat x.x)))

/-- The template `sinh(const matxHalf<T> &x)`, which has no conditional
compilation and no specialisation:
`return static_cast<T>(cuda::std::sinh(static_cast<float>(x.x)));`. -/
def sinh (M : HalfMath P) (arch : CudaArch) (x : matxHalf P) : matxHalf P :=
  matxHalf.ofNative (P.ofFloat (M.std .sinh (P.toFloat x.x)))

/-- The template `cosh(const matxHalf<T> &x)`, which has no conditional
compilation and no specialisation:
`return static_cast<T>(cuda::std::cosh(static_cast<float>(x.x)));`. -/
def cosh (M : HalfMath P) (arch : CudaArch) (x : matxHalf P) : matxHalf P :=
  matxHalf.ofNative (P.ofFloat (M.std .cosh (P.toFloat x.x)))

/-- The template `tanh(const matxHalf<T> &x)`, which has no conditional
compilation and no specialisation:
`return static_cast<T>(cuda::std::tanh(static_cast<float>(x.x)));`. -/
def tanh (M : HalfMath P) (arch : CudaArch) (x : matxHalf P) : matxHalf P :=
  matxHalf.ofNative (P.ofFloat (M.std .tanh (P.toFloat x.x)))

/-! ## Facts about the platform that some properties rest on -/

/-- The facts of IEEE-754 arithmetic that negation relies on, for the 16-bit
values singled out by `finite`: widening to `float` and narrowing back returns
the value (every finite 16-bit value is a `float`), `float` negation of a
widened value is the widened 16-bit negation (both flip the sign), negation
keeps a value finite and is its own inverse, and a finite value compares equal
to itself on either path. -/
structure NegationLaws (P : HalfPlatform) (finite : P.T → Prop) : Prop where
  /-- Narrowing a widened finite value gives it back. -/
  ofFloat_toFloat : ∀ t, finite t → P.ofFloat (P.toFloat t) = t
  /-- Negation commutes with widening. -/
  fneg_toFloat : ∀ t, finite t → P.fneg (P.toFloat t) = P.toFloat (P.hneg t)
  /-- The negation of a finite value is finite. -/
  hneg_finite : ∀ t, finite t → finite (P.hneg t)
  /-- Negating twice gives the value back. -/
  hneg_hneg : ∀ t, finite t → P.hneg (P.hneg t) = t
  /-- A widened finite value is `==` to itself as a `float`. -/
  feq_self : ∀ t, finite t → P.feq (P.toFloat t) (P.toFloat t) = true
  /-- A finite value is `==` to itself in native arithmetic. -/
  heq_self : ∀ t, finite t → P.heq t t = true

/-- Symmetry of `==` on the platform, for `float` and for the 16-bit type. -/
structure EqSymmetric (P : HalfPlatform) : Prop where
  /-- The comparison `f == g` is `g == f` on `float`. -/
  feq_comm : ∀ f g, P.feq f g = P.feq g f
  /-- The comparison `s == t` is `t == s` on the 16-bit type. -/
  heq_comm : ∀ s t, P.heq s t = P.heq t s

/-! ## A concrete platform -/

/-- A platform in which both types are the integers and every conversion and
operation is exact.  On integers of magnitude at most 2048, all of which both
16-bit formats and `float` represent exactly, its sums, differences, products,
negations and comparisons are those of the real platform as long as the result
stays in that range; its quotient is integer division. -/
@[reducible] def intPlatform : HalfPlatform where
  T := Int
  F := Int
  toFloat := fun t => t
  ofFloat := fun f => f
  fadd := fun f g => f + g
  fsub := fun f g => f - g
  fmul := fun f g => f * g
  fdiv := fun f g => f / g
  fneg := fun f => -f
  feq := fun f g => decide (f = g)
  flt := fun f g => decide (f < g)
  fgt := fun f g => decide (f > g)
  hadd := fun s t => s + t
  hsub := fun s t => s - t
  hmul := fun s t => s * t
  hdiv := fun s t => s / t
  hneg := fun t => -t
  heq := fun s t => decide (s = t)
  hlt := fun s t => decide (s < t)
  hgt := fun s t => decide (s > t)
  haddf := fun t f => t + f

/-! ## A fixed-point platform with infinities -/

/-- A value of the fixed-point platform: `fin n` is the number `n / 2^24`, `inf neg`
is the infinity of sign `neg` (`true` for minus), and `nan` is not-a-number.
Zero has no sign. -/
inductive Fixed where
  | fin (n : Int)
  | inf (neg : Bool)
  | nan
  deriving DecidableEq

/-- The nearest multiple of `m` to `n`, the even multiple when `n` is half-way
between two (`m` positive). -/
def roundToMultiple (m n : Int) : Int :=
  let q := n / m
  let r := n % m
  if 2 * r < m then q * m
  else if m < 2 * r then (q + 1) * m
  else if q % 2 = 0 then q * m
  else (q + 1) * m

/-- The nearest multiple of `m` to `n`, the one of larger magnitude when `n` is
half-way between two (`m` positive). -/
def roundHalfAway (m n : Int) : Int :=
  if 0 ≤ n then (2 * n + m) / (2 * m) * m else -((2 * (-n) + m) / (2 * m) * m)

/-- The largest `r` below `2 ^ k` added to the start value whose square is at
most `n`, found bit by bit. -/
def sqrtBits (n : Nat) : Nat → Nat → Nat
  | 0, r => r
  | k + 1, r => sqrtBits n k (if (r + 2 ^ k) * (r + 2 ^ k) ≤ n then r + 2 ^ k else r)

/-- The integer square root of a number below `2 ^ 96`. -/
def intSqrt (n : Nat) : Nat :=
  sqrtBits n 48 0

/-- Negation. -/
def Fixed.neg : Fixed → Fixed
  | .fin n => .fin (-n)
  | .inf s => .inf (!s)
  | .nan => .nan

/-- Sum: exact on numbers, and that of IEEE-754 on infinities and NaN. -/
def Fixed.add : Fixed → Fixed → Fixed
  | .fin a, .fin b => .fin (a + b)
  | .fin _, .inf t => .inf t
  | .inf s, .fin _ => .inf s
  | .inf s, .inf t => if s = t then .inf s else .nan
  | _, _ => .nan

/-- Difference, `a + (-b)`. -/
def Fixed.sub (a b : Fixed) : Fixed :=
  a.add b.neg

/-- Product: rounded down to a multiple of `2^-24` on numbers, and that of
IEEE-754 on infinities and NaN. -/
def Fixed.mul : Fixed → Fixed → Fixed
  | .fin a, .fin b => .fin (a * b / 16777216)
  | .fin a, .inf t => if a = 0 then .nan else .inf (t != decide (a < 0))
  | .inf s, .fin b => if b = 0 then .nan else .inf (s != decide (b < 0))
  | .inf s, .inf t => .inf (s != t)
  | _, _ => .nan

/-- Quotient: rounded down to a multiple of `2^-24` on numbers with a divisor
other than zero; a number other than zero divided by zero is the infinity of
its sign, zero divided by zero is NaN, and infinities and NaN behave as in
IEEE-754. -/
def Fixed.div : Fixed → Fixed → Fixed
  | .fin a, .fin b =>
    if b = 0 then (if a = 0 then .nan else .inf (decide (a < 0)))
    else .fin (a * 16777216 / b)
  | .fin _, .inf _ => .fin 0
  | .inf s, .fin b => .inf (s != decide (b < 0))
  | _, _ => .nan

/-- The comparison `==`: false as soon as one side is NaN. -/
def Fixed.eq : Fixed → Fixed → Bool
  | .fin a, .fin b => decide (a = b)
  | .inf s, .inf t => s == t
  | _, _ => false

/-- The comparison `<`: false as soon as one side is NaN. -/
def Fixed.lt : Fixed → Fixed → Bool
  | .fin a, .fin b => decide (a < b)
  | .fin _, .inf t => !t
  | .inf s, .fin _ => s
  | .inf s, .inf t => s && !t
  | _, _ => false

/-- Rounding of a number to the nearest multiple of `m / 2^24`, ties to even;
infinities and NaN are kept. -/
def Fixed.narrow (m : Int) : Fixed → Fixed
  | .fin n => .fin (roundToMultiple m n)
  | x => x

/-- The value of `f` on a number (in units of `2^-24`), NaN on NaN and `atInf` on
an infinity. -/
def Fixed.lift (f : Int → Fixed) (atInf : Bool → Fixed) : Fixed → Fixed
  | .fin n => f n
  | .inf s => atInf s
  | .nan => .nan

/-- A function known exactly at one argument only: `val` at the number `arg`,
NaN everywhere else. -/
def Fixed.table (arg val : Int) : Fixed → Fixed :=
  Fixed.lift (fun n => if n = arg then .fin val else .nan) (fun _ => .nan)

/-- The `float` functions of one argument on the fixed-point platform.  The
absolute value and the roundings to an integer are exact; the square root and
its reciprocal are rounded down to a multiple of `2^-24`; every other function
is tabulated at the one argument (`0` or `1`) where its value is `0` or
`1`. -/
def Fixed.std : StdFn → Fixed → Fixed
  | .abs => Fixed.lift (fun n => .fin (if n < 0 then -n else n)) (fun _ => .inf false)
  | .sqrt =>
    Fixed.lift (fun n => if n < 0 then .nan else .fin (intSqrt (n.toNat * 16777216)))
      (fun s => if s then .nan else .inf false)
  | .rsqrt =>
    Fixed.lift
      (fun n => if n < 0 then .nan else if n = 0 then .inf false
        else .fin (intSqrt (4722366482869645213696 / n.toNat)))
      (fun s => if s then .nan else .fin 0)
  | .floor => Fixed.lift (fun n => .fin (n / 16777216 * 16777216)) .inf
  | .ceil => Fixed.lift (fun n => .fin (-((-n) / 16777216 * 16777216))) .inf
  | .round => Fixed.lift (fun n => .fin (roundHalfAway 16777216 n)) .inf
  | .log => Fixed.table 16777216 0
  | .log10 => Fixed.table 16777216 0
  | .log2 => Fixed.table 16777216 0
  | .exp => Fixed.table 0 16777216
  | .sin => Fixed.table 0 0
  | .cos => Fixed.table 0 16777216
  | .tan => Fixed.table 0 0
  | .asin => Fixed.table 0 0
  | .acos => Fixed.table 16777216 0
  | .atan => Fixed.table 0 0
  | .asinh => Fixed.table 0 0
  | .acosh => Fixed.table 16777216 0
  | .atanh => Fixed.table 0 0
  | .sinh => Fixed.table 0 0
  | .cosh => Fixed.table 0 16777216
  | .tanh => Fixed.table 0 0

/-- The device intrinsics on the fixed-point platform: the value of the
matching `float` function rounded to the 16-bit grid, except `hrint`, which
rounds to the nearest integer with ties to the even one. -/
def Fixed.intrinsic : Intrinsic → Fixed → Fixed
  | .habs => fun t => Fixed.narrow 8192 (Fixed.std .abs t)
  | .hsqrt => fun t => Fixed.narrow 8192 (Fixed.std .sqrt t)
  | .hrsqrt => fun t => Fixed.narrow 8192 (Fixed.std .rsqrt t)
  | .hlog => fun t => Fixed.narrow 8192 (Fixed.std .log t)
  | .hlog10 => fun t => Fixed.narrow 8192 (Fixed.std .log10 t)
  | .hlog2 => fun t => Fixed.narrow 8192 (Fixed.std .log2 t)
  | .hexp => fun t => Fixed.narrow 8192 (Fixed.std .exp t)
  | .hfloor => fun t => Fixed.narrow 8192 (Fixed.std .floor t)
  | .hceil => fun t => Fixed.narrow 8192 (Fixed.std .ceil t)
  | .hrint => Fixed.lift (fun n => .fin (roundToMultiple 16777216 n)) .inf
  | .hsin => fun t => Fixed.narrow 8192 (Fixed.std .sin t)
  | .hcos => fun t => Fixed.narrow 8192 (Fixed.std .cos t)

/-- A platform of fixed-point numbers with infinities and NaN.  A `float` is
any multiple of `2^-24`; the 16-bit type keeps the multiples of `2^-11`, which
is the spacing of `__half` between `1/2` and `1`; conversions to it and its
native operations round to nearest, ties to even.  Sums, differences,
negations and comparisons of `float`s are exact. -/
@[reducible] def fixedPlatform : HalfPlatform where
  T := Fixed
  F := Fixed
  toFloat := fun t => t
  ofFloat := Fixed.narrow 8192
  fadd := Fixed.add
  fsub := Fixed.sub
  fmul := Fixed.mul
  fdiv := Fixed.div
  fneg := Fixed.neg
  feq := Fixed.eq
  flt := Fixed.lt
  fgt := fun f g => Fixed.lt g f
  hadd := fun s t => Fixed.narrow 8192 (Fixed.add s t)
  hsub := fun s t => Fixed.narrow 8192 (Fixed.sub s t)
  hmul := fun s t => Fixed.narrow 8192 (Fixed.mul s t)
  hdiv := fun s t => Fixed.narrow 8192 (Fixed.div s t)
  hneg := Fixed.neg
  heq := Fixed.eq
  hlt := Fixed.lt
  hgt := fun s t => Fixed.lt t s
  haddf := Fixed.add

/-- The math functions of the fixed-point platform.  Its `__nv_bfloat16` keeps
the multiples of `2^-8`, the spacing of `__nv_bfloat16` between `1/2` and
`1`. -/
@[reducible] def fixedMath : HalfMath fixedPlatform where
  intrinsic := Fixed.intrinsic
  hisinf := fun t => match t with
    | .inf neg => if neg then -1 else 1
    | _ => 0
  std := Fixed.std
  atan2 := fun y x => match y, x with
    | .fin 0, .fin n => if 0 < n then .fin 0 else .nan
    | _, _ => .nan
  isinf := fun f => match f with
    | .inf _ => true
    | _ => false
  one := .fin 16777216
  B := Fixed
  ofFloatB := Fixed.narrow 65536
  toFloatB := fun b => b

/-- The wrapper that holds `0` on the fixed-point platform. -/
def fixedZero : matxHalf fixedPlatform := ⟨.fin 0⟩

/-- The wrapper that holds `0.5` on the fixed-point platform. -/
def fixedHalf : matxHalf fixedPlatform := ⟨.fin 8388608⟩

/-- The wrapper that holds `1` on the fixed-point platform. -/
def fixedOne : matxHalf fixedPlatform := ⟨.fin 16777216⟩

/-- The wrapper that holds `2.5` on the fixed-point platform. -/
def fixedTwoAndHalf : matxHalf fixedPlatform := ⟨.fin 41943040⟩

/-- The wrapper that holds `3` on the fixed-point platform. -/
def fixedThree : matxHalf fixedPlatform := ⟨.fin 50331648⟩

/-! ## Facts about the platform for conversions and arithmetic -/

/-- Narrowing is stable: a `float` narrowed to the 16-bit type, widened and
narrowed again is the same 16-bit value.  On the real formats the first
narrowing gives a 16-bit number, an infinity or the canonical NaN, each of
which `float` holds exactly. -/
structure NarrowingLaws (P : HalfPlatform) : Prop where
  /-- Narrowing after a round trip is the first narrowing. -/
  ofFloat_toFloat_ofFloat : ∀ f, P.ofFloat (P.toFloat (P.ofFloat f)) = P.ofFloat f

/-- The facts of IEEE-754 arithmetic behind the binary operators, with `zero`
the `float` `0.0f` and `inf` the `float` `+infinity`: the result of a native
16-bit operation survives widening and narrowing; `1`, `0` and `+infinity` are
16-bit values; `1 / 0` is `+infinity` in `float` and in native arithmetic; and
both classifications recognise `+infinity`. -/
structure ArithmeticLaws (P : HalfPlatform) (M : HalfMath P) (zero inf : P.F) : Prop where
  /-- A native sum survives the round trip. -/
  hadd_stable : ∀ s t, P.ofFloat (P.toFloat (P.hadd s t)) = P.hadd s t
  /-- A native difference survives the round trip. -/
  hsub_stable : ∀ s t, P.ofFloat (P.toFloat (P.hsub s t)) = P.hsub s t
  /-- A native product survives the round trip. -/
  hmul_stable : ∀ s t, P.ofFloat (P.toFloat (P.hmul s t)) = P.hmul s t
  /-- A native quotient survives the round trip. -/
  hdiv_stable : ∀ s t, P.ofFloat (P.toFloat (P.hdiv s t)) = P.hdiv s t
  /-- The number `1` is a 16-bit value. -/
  toFloat_one : P.toFloat (P.ofFloat M.one) = M.one
  /-- The number `0` is a 16-bit value. -/
  toFloat_zero : P.toFloat (P.ofFloat zero) = zero
  /-- The `float` quotient `1 / 0` is `+infinity`. -/
  fdiv_one_zero : P.fdiv M.one zero = inf
  /-- The value `+infinity` is a 16-bit value. -/
  toFloat_inf : P.toFloat (P.ofFloat inf) = inf
  /-- The function `cuda::std::isinf` is true of `+infinity`. -/
  isinf_inf : M.isinf inf = true
  /-- The native quotient `1 / 0` is `+infinity`. -/
  hdiv_one_zero : P.hdiv (P.ofFloat M.one) (P.ofFloat zero) = P.ofFloat inf
  /-- The intrinsic `__hisinf` is not zero on `+infinity`. -/
  hisinf_inf : M.hisinf (P.ofFloat inf) ≠ 0

/-- What it is for a function of the compilation pass to honour the capability
threshold 800: on the host and on a device below 800 its value is `fallback`,
and on a device at 800 or above it is `hardware`. -/
def HonoursThreshold {α : Type} (f : CudaArch → α) (fallback hardware : α) : Prop :=
  f none = fallback ∧ (∀ n, n < 800 → f (some n) = fallback) ∧
    (∀ n, 800 ≤ n → f (some n) = hardware)

/-! ## The floating-point formats, modelled

The encodings of `__half`, `__nv_bfloat16` and `float`, and the conversions
between them, belong to the platform.  For the properties that are about the
conversions themselves they are modelled here from the spec: a Format is an
exponent/mantissa split, widening to the 32-bit type is exact, and narrowing
rounds to the nearest value of the Format. -/

/-- Modelled from the spec: a value of a binary floating-point type no wider than
the 32-bit one (the encoding itself is the platform's and is missing).
`num neg mag` is the number `mag * 2^-149` with sign `neg` (`true` for minus);
every finite value of the three types is of this form, `2^-149` being the
least positive 32-bit value, and zero has a sign.  `inf neg` is an infinity
and `nan` is not-a-number. -/
inductive Ext where
  | num (neg : Bool) (mag : Nat)
  | inf (neg : Bool)
  | nan
  deriving DecidableEq

/-- Modelled from the spec: a Format as an exponent/mantissa split, `expo` bits
of exponent and `mant` stored bits of mantissa (the bit layout is the
platform's and is missing). -/
structure Format where
  /-- The number of exponent bits. -/
  expo : Nat
  /-- The number of stored mantissa bits. -/
  mant : Nat

/-- Modelled from the spec: the alternate Format, that of `__nv_bfloat16` (whose
declaration is the platform's and is missing): 8 exponent bits, 7 mantissa
bits. -/
def bfloat16 : Format := ⟨8, 7⟩

/-- The exponent bias `2^(expo - 1) - 1`. -/
def Format.bias (fmt : Format) : Nat :=
  2 ^ (fmt.expo - 1) - 1

/-- The least positive value of the Format is `2^quantum` units of `2^-149`:
`2^(1 - bias - mant)`. -/
def Format.quantum (fmt : Format) : Nat :=
  150 - fmt.bias - fmt.mant

/-- The finite values of the Format are below `2^top` units of `2^-149`:
below `2^(bias + 1)`. -/
def Format.top (fmt : Format) : Nat :=
  fmt.bias + 150

/-- The number of binary digits of `n`, counted in at most `fuel` halvings. -/
def bitLengthFuel : Nat → Nat → Nat
  | 0, _ => 0
  | fuel + 1, n => if n = 0 then 0 else bitLengthFuel fuel (n / 2) + 1

/-- The number of binary digits of `n`. -/
def bitLength (n : Nat) : Nat :=
  bitLengthFuel n n

/-- The spacing of the Format's values at magnitude `n`: a value has `mant + 1`
significant digits, and none below the least positive value. -/
def Format.step (fmt : Format) (n : Nat) : Nat :=
  2 ^ max (bitLength n - (fmt.mant + 1)) fmt.quantum

/-- The multiple of `step` nearest to the fraction `num / den`, the even multiple
when the fraction is half-way between two. -/
def roundRatio (step num den : Nat) : Nat :=
  let q := num / (den * step)
  let r := num % (den * step)
  if 2 * r < den * step then q * step
  else if den * step < 2 * r then (q + 1) * step
  else if q % 2 = 0 then q * step
  else (q + 1) * step

/-- Modelled from the spec: rounding of the number `num / den` units with sign
`neg` to the Format, to the nearest value with ties to the even one, and to
the infinity when the rounded magnitude is out of range. -/
def Format.round (fmt : Format) (neg : Bool) (num den : Nat) : Ext :=
  let r := roundRatio (fmt.step (num / den)) num den
  if r < 2 ^ fmt.top then .num neg r else .inf neg

/-- Whether `v` is a value of the Format: an infinity, NaN, or a number in range
that is a multiple of the spacing at its magnitude. -/
def Format.isValue (fmt : Format) : Ext → Bool
  | .num _ mag => decide (mag < 2 ^ fmt.top) && decide (mag % fmt.step mag = 0)
  | _ => true

/-- The values of the Format. -/
def Format.Value (fmt : Format) : Type :=
  { v : Ext // fmt.isValue v = true }

/-- A value of the Format from an `Ext` that is one; NaN otherwise. -/
def Format.toValue (fmt : Format) (v : Ext) : fmt.Value :=
  if h : fmt.isValue v = true then ⟨v, h⟩ else ⟨.nan, rfl⟩

/-- Modelled from the spec: narrowing to the Format (`static_cast<T>(f)`, which
is the platform's and is missing): a number is rounded to the Format, an
infinity and NaN are kept.  The rounded number is always a value of the Format
(`Format.isValue_round`). -/
def Format.narrow (fmt : Format) : Ext → fmt.Value
  | .num neg mag => fmt.toValue (fmt.round neg mag 1)
  | v => fmt.toValue v

/-- Negation: the sign is flipped. -/
def Ext.neg : Ext → Ext
  | .num s m => .num (!s) m
  | .inf s => .inf (!s)
  | .nan => .nan

/-- The integer `±mag`. -/
def Ext.signed (neg : Bool) (mag : Nat) : Int :=
  if neg then -(mag : Int) else mag

/-- Modelled from the spec: the sum in the Format's own floating-point semantics
(the operator is the platform's and is missing): the exact sum rounded to the
Format. -/
def Format.add (fmt : Format) : Ext → Ext → Ext
  | .num s m, .num t n =>
    let z := Ext.signed s m + Ext.signed t n
    fmt.round (decide (z < 0) || (s && t)) z.natAbs 1
  | .num _ _, .inf t => .inf t
  | .inf s, .num _ _ => .inf s
  | .inf s, .inf t => if s = t then .inf s else .nan
  | _, _ => .nan

/-- Modelled from the spec: the difference in the Format's own floating-point
semantics, `a + (-b)`. -/
def Format.sub (fmt : Format) (a b : Ext) : Ext :=
  fmt.add a b.neg

/-- Modelled from the spec: the product in the Format's own floating-point
semantics: the exact product rounded to the Format. -/
def Format.mul (fmt : Format) : Ext → Ext → Ext
  | .num s m, .num t n => fmt.round (s != t) (m * n) (2 ^ 149)
  | .num s m, .inf t => if m = 0 then .nan else .inf (s != t)
  | .inf s, .num t n => if n = 0 then .nan else .inf (s != t)
  | .inf s, .inf t => .inf (s != t)
  | _, _ => .nan

/-- Modelled from the spec: the quotient in the Format's own floating-point
semantics: the exact quotient rounded to the Format; a number other than zero
divided by zero is an infinity and zero divided by zero is NaN. -/
def Format.div (fmt : Format) : Ext → Ext → Ext
  | .num s m, .num t n =>
    if n = 0 then (if m = 0 then .nan else .inf (s != t))
    else fmt.round (s != t) (m * 2 ^ 149) n
  | .num s _, .inf t => .num (s != t) 0
  | .inf s, .num t _ => .inf (s != t)
  | _, _ => .nan

/-- The comparison `==`: equal numbers (the two zeros are equal) or equal
infinities; false as soon as one side is NaN. -/
def Ext.eq : Ext → Ext → Bool
  | .num s m, .num t n => decide (Ext.signed s m = Ext.signed t n)
  | .inf s, .inf t => s == t
  | _, _ => false

/-- The comparison `<`: false as soon as one side is NaN. -/
def Ext.lt : Ext → Ext → Bool
  | .num s m, .num t n => decide (Ext.signed s m < Ext.signed t n)
  | .num _ _, .inf t => !t
  | .inf s, .num _ _ => s
  | .inf s, .inf t => s && !t
  | _, _ => false

section MixedOperators

variable {P : HalfPlatform}

/-- The mixed `operator+` on a wrapper and a native value returns nothing, whatever the fuel. -/
theorem operatorAddHN_eq_none (fuel : Nat) (lhs : matxHalf P) (rhs : P.T) :
    operatorAddHN fuel lhs rhs = none := by
  induction fuel with
  | zero => rfl
  | succ k ih => simpa [operatorAddHN] using ih

/-- The mixed `operator+` on a native value and a wrapper returns nothing, whatever the fuel. -/
theorem operatorAddNH_eq_none (fuel : Nat) (lhs : P.T) (rhs : matxHalf P) :
    operatorAddNH fuel lhs rhs = none := by
  induction fuel with
  | zero => rfl
  | succ k ih => simpa [operatorAddNH] using ih

/-- The mixed `operator-` on a wrapper and a native value returns nothing, whatever the fuel. -/
theorem operatorSubHN_eq_none (fuel : Nat) (lhs : matxHalf P) (rhs : P.T) :
    operatorSubHN fuel lhs rhs = none := by
  induction fuel with
  | zero => rfl
  | succ k ih => simpa [operatorSubHN] using ih

/-- The mixed `operator-` on a native value and a wrapper returns nothing, whatever the fuel. -/
theorem operatorSubNH_eq_none (fuel : Nat) (lhs : P.T) (rhs : matxHalf P) :
    operatorSubNH fuel lhs rhs = none := by
  induction fuel with
  | zero => rfl
  | succ k ih => simpa [operatorSubNH] using ih

/-- The mixed `operator*` on a wrapper and a native value returns nothing, whatever the fuel. -/
theorem operatorMulHN_eq_none (fuel : Nat) (lhs : matxHalf P) (rhs : P.T) :
    operatorMulHN fuel lhs rhs = none := by
  induction fuel with
  | zero => rfl
  | succ k ih => simpa [operatorMulHN] using ih

/-- The mixed `operator*` on a native value and a wrapper returns nothing, whatever the fuel. -/
theorem operatorMulNH_eq_none (fuel : Nat) (lhs : P.T) (rhs : matxHalf P) :
    operatorMulNH fuel lhs rhs = none := by
  induction fuel with
  | zero => rfl
  | succ k ih => simpa [operatorMulNH] using ih

/-- The mixed `operator/` on a wrapper and a native value returns nothing, whatever the fuel. -/
theorem operatorDivHN_eq_none (fuel : Nat) (lhs : matxHalf P) (rhs : P.T) :
    operatorDivHN fuel lhs rhs = none := by
  induction fuel with
  | zero => rfl
  | succ k ih => simpa [operatorDivHN] using ih

/-- The mixed `operator/` on a native value and a wrapper returns nothing, whatever the fuel. -/
theorem operatorDivNH_eq_none (fuel : Nat) (lhs : P.T) (rhs : matxHalf P) :
    operatorDivNH fuel lhs rhs = none := by
  induction fuel with
  | zero => rfl
  | succ k ih => simpa [operatorDivNH] using ih

/-- C1: the mixed operators do not apply the wrapper/wrapper operator to the
converted operand.  With any amount of fuel, on either compilation pass, none
of `a op n` and `n op a` (for `+`, `-`, `*`, `/`) returns the value of
`a op matxHalf<T>(n)`, respectively `matxHalf<T>(n) op a`. -/
theorem mixed_operator_never_wrapper_result (P : HalfPlatform) (fuel : Nat) (arch : CudaArch)
    (a : matxHalf P) (n : P.T) :
    operatorAddHN fuel a n ≠ some (operatorAdd arch a (matxHalf.ofNative n)) ∧
    operatorAddNH fuel n a ≠ some (operatorAdd arch (matxHalf.ofNative n) a) ∧
    operatorSubHN fuel a n ≠ some (operatorSub arch a (matxHalf.ofNative n)) ∧
    operatorSubNH fuel n a ≠ some (operatorSub arch (matxHalf.ofNative n) a) ∧
    operatorMulHN fuel a n ≠ some (operatorMul arch a (matxHalf.ofNative n)) ∧
    operatorMulNH fuel n a ≠ some (operatorMul arch (matxHalf.ofNative n) a) ∧
    operatorDivHN fuel a n ≠ some (operatorDiv arch a (matxHalf.ofNative n)) ∧
    operatorDivNH fuel n a ≠ some (operatorDiv arch (matxHalf.ofNative n) a) := by
  simp [operatorAddHN_eq_none, operatorAddNH_eq_none, operatorSubHN_eq_none,
    operatorSubNH_eq_none, operatorMulHN_eq_none, operatorMulNH_eq_none,
    operatorDivHN_eq_none, operatorDivNH_eq_none]

/-- C2: the mixed operators are not total.  For every wrapper value, every
native value and every amount of fuel, each of the eight mixed operators runs
out of fuel: the call recurses into itself and never reaches a `return` with a
value. -/
theorem mixed_operator_never_returns (P : HalfPlatform) (fuel : Nat) (a : matxHalf P)
    (n : P.T) :
    operatorAddHN fuel a n = none ∧ operatorAddNH fuel n a = none ∧
    operatorSubHN fuel a n = none ∧ operatorSubNH fuel n a = none ∧
    operatorMulHN fuel a n = none ∧ operatorMulNH fuel n a = none ∧
    operatorDivHN fuel a n = none ∧ operatorDivNH fuel n a = none :=
  ⟨operatorAddHN_eq_none fuel a n, operatorAddNH_eq_none fuel n a,
    operatorSubHN_eq_none fuel a n, operatorSubNH_eq_none fuel n a,
    operatorMulHN_eq_none fuel a n, operatorMulNH_eq_none fuel n a,
    operatorDivHN_eq_none fuel a n, operatorDivNH_eq_none fuel n a⟩

/-- C3: the mixed-operand comparison `(a + n) == (n + a)` has no value.  With any
amount of fuel for each of the two sums, and on either compilation pass, there
are no results `l` of `a + n` and `r` of `n + a` to compare. -/
theorem mixed_add_comm_has_no_value (P : HalfPlatform) (fuel1 fuel2 : Nat) (arch : CudaArch)
    (a : matxHalf P) (n : P.T) :
    ((operatorAddHN fuel1 a n).bind fun l =>
      (operatorAddNH fuel2 n a).map fun r => operatorEq arch l r) = none := by
  simp [operatorAddHN_eq_none]

end MixedOperators

/-! ## Addition of two wrappers commutes -/

/-- Where the platform's `float` sum and native 16-bit sum are commutative, so
is the sum of two wrappers, on either compilation pass. -/
theorem operatorAdd_comm (P : HalfPlatform) (hf : ∀ f g, P.fadd f g = P.fadd g f)
    (hh : ∀ s t, P.hadd s t = P.hadd t s) (arch : CudaArch) (a b : matxHalf P) :
    operatorAdd arch a b = operatorAdd arch b a := by
  unfold operatorAdd
  rw [hf a.toFloat32 b.toFloat32, hh a.x b.x]

/-- The commutativity of the wrapper sum, on the integer platform at `1` and `2`. -/
theorem operatorAdd_comm_witness :
    operatorAdd none (⟨1⟩ : matxHalf intPlatform) ⟨2⟩ = operatorAdd none ⟨2⟩ ⟨1⟩ :=
  operatorAdd_comm intPlatform (fun f g => Int.add_comm f g) (fun s t => Int.add_comm s t)
    none ⟨1⟩ ⟨2⟩

/-! ## Negation -/

/-- C4: unary negation is an involution.  On a platform with the `NegationLaws`,
for every finite wrapper value `x`, `-(-x) == x` is true on the host pass
(negate the widened value and narrow it through the converting constructor) and
on the device pass (native negation). -/
theorem operatorNeg_involution (P : HalfPlatform) (finite : P.T → Prop)
    (laws : NegationLaws P finite) (arch : CudaArch) (x : matxHalf P) (hx : finite x.x) :
    operatorEq arch (operatorNeg arch (operatorNeg arch x)) x = true := by
  have hn : finite (P.hneg x.x) := laws.hneg_finite x.x hx
  cases arch with
  | none =>
    simp only [operatorEq, operatorNeg, matxHalf.ofFloat32, matxHalf.construct,
      Option.isSome_none, Bool.false_eq_true, if_false, id]
    rw [laws.fneg_toFloat x.x hx, laws.ofFloat_toFloat _ hn, laws.fneg_toFloat _ hn,
      laws.hneg_hneg x.x hx, laws.ofFloat_toFloat x.x hx]
    exact laws.feq_self x.x hx
  | some n =>
    simp only [operatorEq, operatorNeg, matxHalf.ofNative, matxHalf.construct,
      Option.isSome_some, if_true]
    rw [laws.ofFloat_toFloat _ hn, laws.hneg_hneg x.x hx, laws.ofFloat_toFloat x.x hx]
    exact laws.heq_self x.x hx

/-- The involution on the integer platform, where every value is finite, at `3`. -/
theorem operatorNeg_involution_witness :
    operatorEq none (operatorNeg none (operatorNeg none (⟨3⟩ : matxHalf intPlatform))) ⟨3⟩
      = true :=
  operatorNeg_involution intPlatform (fun _ => True)
    ⟨fun _ _ => rfl, fun _ _ => rfl, fun _ _ => trivial, fun t _ => Int.neg_neg t,
      fun _ _ => by simp, fun _ _ => by simp⟩
    none ⟨3⟩ trivial

/-! ## Comparisons -/

/-- C5: `<=` and `>=` are the disjunctions of the primitive comparisons.  For
all wrapper values `x`, `y` and on either compilation pass, `x <= y` is
`x < y || x == y` and `x >= y` is `x > y || x == y`. -/
theorem operatorLe_operatorGe_derived (P : HalfPlatform) (arch : CudaArch) (x y : matxHalf P) :
    operatorLe arch x y = (operatorLt arch x y || operatorEq arch x y) ∧
    operatorGe arch x y = (operatorGt arch x y || operatorEq arch x y) :=
  ⟨rfl, rfl⟩

/-- C6: `!=` is the negation of `==` in each of the three operand shapes
(wrapper/wrapper, wrapper/native, native/wrapper), on either compilation
pass. -/
theorem operatorNe_eq_not_operatorEq (P : HalfPlatform) (arch : CudaArch) (a b : matxHalf P)
    (n : P.T) :
    operatorNe arch a b = !(operatorEq arch a b) ∧
    operatorNeHN arch a n = !(operatorEqHN arch a n) ∧
    operatorNeNH arch n a = !(operatorEqNH arch n a) :=
  ⟨rfl, rfl, rfl⟩

/-- C7: equality with a native operand converts it to a wrapper and keeps the
meaning of the operand order.  Where the platform's `==` is symmetric, `a == n`
is `a == matxHalf<T>(n)` and `n == a` is `matxHalf<T>(n) == a`, although the
second overload evaluates `rhs == tmp`. -/
theorem operatorEq_native_operand (P : HalfPlatform) (sym : EqSymmetric P) (arch : CudaArch)
    (a : matxHalf P) (n : P.T) :
    operatorEqHN arch a n = operatorEq arch a (matxHalf.ofNative n) ∧
    operatorEqNH arch n a = operatorEq arch (matxHalf.ofNative n) a := by
  refine ⟨rfl, ?_⟩
  cases arch with
  | none =>
    simp only [operatorEqNH, operatorEq, Option.isSome_none, Bool.false_eq_true, if_false]
    exact sym.feq_comm _ _
  | some k =>
    simp only [operatorEqNH, operatorEq, Option.isSome_some, if_true]
    exact sym.heq_comm _ _

/-- Equality with a native operand on the integer platform, at `3` and `3`. -/
theorem operatorEq_native_operand_witness :
    operatorEqHN none (⟨3⟩ : matxHalf intPlatform) 3
      = operatorEq none (⟨3⟩ : matxHalf intPlatform) (matxHalf.ofNative 3) ∧
    operatorEqNH none 3 (⟨3⟩ : matxHalf intPlatform)
      = operatorEq none (matxHalf.ofNative 3) (⟨3⟩ : matxHalf intPlatform) :=
  operatorEq_native_operand intPlatform
    ⟨fun f g => by simp [eq_comm], fun s t => by simp [eq_comm]⟩ none ⟨3⟩ 3

/-! ## Compound assignment -/

/-- C8: wrapper compound assignment updates the receiver in place.  For all
wrapper values `a`, `b` and each of `+=`, `-=`, `*=`, `/=`, the receiver after
the call is the value of the binary expression on the receiver before the call
and `b`, and the returned object is the updated receiver. -/
theorem compound_assign_in_place (P : HalfPlatform) (arch : CudaArch) (a b : matxHalf P) :
    ((a.operatorAddAssign arch b).receiver = operatorAdd arch a b ∧
      (a.operatorAddAssign arch b).returned = (a.operatorAddAssign arch b).receiver) ∧
    ((a.operatorSubAssign arch b).receiver = operatorSub arch a b ∧
      (a.operatorSubAssign arch b).returned = (a.operatorSubAssign arch b).receiver) ∧
    ((a.operatorMulAssign arch b).receiver = operatorMul arch a b ∧
      (a.operatorMulAssign arch b).returned = (a.operatorMulAssign arch b).receiver) ∧
    ((a.operatorDivAssign arch b).receiver = operatorDiv arch a b ∧
      (a.operatorDivAssign arch b).returned = (a.operatorDivAssign arch b).receiver) :=
  ⟨⟨rfl, rfl⟩, ⟨rfl, rfl⟩, ⟨rfl, rfl⟩, ⟨rfl, rfl⟩⟩

/-- C9: the `float` decrement-assign has no result, and what it would return is a
sum.  On every platform and pass, for every wrapper `a` and `float` `f`, the
call `a -= f` has no outcome, because the member returns a braced list through
a reference to non-const; and the operand of its `return` is the operand of
`operator+=(float)`, on the host the narrowed sum
`static_cast<T>(static_cast<float>(x) + f)`. -/
theorem operatorSubAssignFloat_no_outcome (P : HalfPlatform) (arch : CudaArch)
    (a : matxHalf P) (f : P.F) :
    a.operatorSubAssignFloat arch f = none ∧
    a.operatorSubAssignFloatOperand arch f = a.operatorAddAssignFloatOperand arch f ∧
    a.operatorSubAssignFloatOperand none f
      = .braced (matxHalf.ofNative (P.ofFloat (P.fadd (P.toFloat a.x) f))) := by
  refine ⟨?_, rfl, rfl⟩
  cases arch <;> rfl

/-- C10: the `float` increment-assign has no result.  On every platform and
pass, for every wrapper `a` and `float` `f`, the call `a += f` has no outcome:
the operand of its `return` is a braced list, to which the returned reference
to non-const cannot bind, so there is no updated receiver and no returned
object. -/
theorem operatorAddAssignFloat_no_outcome (P : HalfPlatform) (arch : CudaArch)
    (a : matxHalf P) (f : P.F) :
    a.operatorAddAssignFloat arch f = none ∧
    (a.operatorAddAssignFloatOperand arch f).bindReference = none := by
  cases arch <;> exact ⟨rfl, rfl⟩

/-! ## Construction, assignment and round trips -/

/-- C11: constructing from a value `v` of a source type and assigning `v` store the
same thing.  With `cast` the conversion `static_cast<float>` of the source
type, the constructed wrapper and the receiver after the assignment both hold
`static_cast<T>(cast v)`, the assignment returns its receiver, and so the two
operations agree. -/
theorem construct_assign_store_narrowed (P : HalfPlatform) (T2 : Type) (cast : T2 → P.F)
    (self : matxHalf P) (v : T2) :
    (matxHalf.construct cast v : matxHalf P).x = P.ofFloat (cast v) ∧
    (self.assign cast v).receiver.x = P.ofFloat (cast v) ∧
    (self.assign cast v).returned = (self.assign cast v).receiver ∧
    (self.assign cast v).receiver = matxHalf.construct cast v :=
  ⟨rfl, rfl, rfl, rfl⟩

/-- Rounding to a multiple of `8192` leaves a multiple of `8192` as it is. -/
theorem roundToMultiple_idem (n : Int) :
    roundToMultiple 8192 (roundToMultiple 8192 n) = roundToMultiple 8192 n := by
  simp only [roundToMultiple]
  split_ifs <;> omega

/-- Narrowing to the 16-bit grid twice is narrowing once. -/
theorem Fixed.narrow_narrow (f : Fixed) :
    Fixed.narrow 8192 (Fixed.narrow 8192 f) = Fixed.narrow 8192 f := by
  cases f with
  | fin n => simp only [Fixed.narrow, roundToMultiple_idem]
  | inf s => rfl
  | nan => rfl

/-- The fixed-point platform has the `NarrowingLaws`. -/
theorem fixedPlatform_narrowingLaws : NarrowingLaws fixedPlatform :=
  ⟨fun f => Fixed.narrow_narrow f⟩

/-- The fixed-point platform has the `ArithmeticLaws`, with `0` and
`+infinity`. -/
theorem fixedPlatform_arithmeticLaws :
    ArithmeticLaws fixedPlatform fixedMath (.fin 0) (.inf false) where
  hadd_stable := fun s t => Fixed.narrow_narrow (Fixed.add s t)
  hsub_stable := fun s t => Fixed.narrow_narrow (Fixed.sub s t)
  hmul_stable := fun s t => Fixed.narrow_narrow (Fixed.mul s t)
  hdiv_stable := fun s t => Fixed.narrow_narrow (Fixed.div s t)
  toFloat_one := by decide
  toFloat_zero := by decide
  fdiv_one_zero := by decide
  toFloat_inf := by decide
  isinf_inf := by decide
  hdiv_one_zero := by decide
  hisinf_inf := by decide

/-- Where narrowing is stable, the wrapper built from a narrowed `float` is
the wrapper built from the `float`. -/
theorem matxHalf.ofNative_ofFloat {P : HalfPlatform} (laws : NarrowingLaws P) (f : P.F) :
    matxHalf.ofNative (P.ofFloat f) = (matxHalf.ofFloat32 f : matxHalf P) := by
  simp only [matxHalf.ofNative, matxHalf.ofFloat32, matxHalf.construct, id,
    laws.ofFloat_toFloat_ofFloat]

/-- A choice on `__CUDA_ARCH__ >= 800` honours the threshold. -/
theorem honoursThreshold_ite {α : Type} (hardware fallback : α) :
    HonoursThreshold (fun arch => if 800 ≤ cudaArchValue arch then hardware else fallback)
      fallback hardware := by
  refine ⟨by simp [cudaArchValue], fun n hn => ?_, fun n hn => ?_⟩
  · simp [cudaArchValue, Nat.not_le.mpr hn]
  · simp [cudaArchValue, hn]

/-- C13: on the host the primary template of `rsqrt` narrows through
`__nv_bfloat16`.  On every platform the stored result is the `float`
reciprocal square root narrowed to `__nv_bfloat16`, widened, and narrowed to
`T`, with and without `__CUDACC__`.  On the fixed-point platform at `x = 3` the
result is `9699328 / 2^24 = 0.578125`, where the reciprocal square root
narrowed directly to the 16-bit type is `9682944 / 2^24 = 0.5771484375`. -/
theorem rsqrt_host_narrows_through_bf16 :
    (∀ (P : HalfPlatform) (M : HalfMath P) (x : matxHalf P),
      (rsqrt M true none x).x
        = P.ofFloat (M.toFloatB (M.ofFloatB (M.std .rsqrt (P.toFloat x.x)))) ∧
      (rsqrt M false none x).x
        = P.ofFloat (M.toFloatB (M.ofFloatB (P.fdiv M.one (M.std .sqrt (P.toFloat x.x)))))) ∧
    (rsqrt fixedMath true none fixedThree).x = Fixed.fin 9699328 ∧
    fixedPlatform.ofFloat (fixedMath.std .rsqrt fixedThree.toFloat32)
      = Fixed.fin 9682944 := by
  refine ⟨fun P M x => ⟨rfl, rfl⟩, ?_, ?_⟩
  · simp [rsqrt, fixedThree, matxHalf.construct, Fixed.narrow, Fixed.std, Fixed.lift, intSqrt,
      sqrtBits, roundToMultiple]
  · simp [fixedThree, matxHalf.toFloat32, Fixed.narrow, Fixed.std, Fixed.lift, intSqrt,
      sqrtBits, roundToMultiple]

/-- C14: the device and the host results of `round` differ on half-way inputs.
On every platform the device result is built from `hrint` and the host result
from `cuda::std::round`.  On the fixed-point platform `round(0.5)` is `0` on
the device and `1` on the host, and `round(2.5)` is `2` on the device and `3`
on the host, for the primary template and for the `__nv_bfloat16`
specialisation at capability 800. -/
theorem round_device_host_differ :
    (∀ (P : HalfPlatform) (M : HalfMath P) (n : Nat) (x : matxHalf P),
      round M (some n) x = matxHalf.ofNative (M.intrinsic .hrint x.x) ∧
      round M none x = matxHalf.ofNative (P.ofFloat (M.std .round (P.toFloat x.x)))) ∧
    ((round fixedMath (some 700) fixedHalf).x = Fixed.fin 0 ∧
      (round fixedMath none fixedHalf).x = Fixed.fin 16777216) ∧
    ((round fixedMath (some 700) fixedTwoAndHalf).x = Fixed.fin 33554432 ∧
      (round fixedMath none fixedTwoAndHalf).x = Fixed.fin 50331648) ∧
    ((round_bf16 fixedMath (some 800) fixedHalf).x = Fixed.fin 0 ∧
      (round_bf16 fixedMath none fixedHalf).x = Fixed.fin 16777216) ∧
    ((round_bf16 fixedMath (some 800) fixedTwoAndHalf).x = Fixed.fin 33554432 ∧
      (round_bf16 fixedMath none fixedTwoAndHalf).x = Fixed.fin 50331648) :=
  ⟨fun _ _ _ _ => ⟨rfl, rfl⟩, ⟨by decide, by decide⟩, ⟨by decide, by decide⟩,
    ⟨by decide, by decide⟩, ⟨by decide, by decide⟩⟩

/-- C15: every `__nv_bfloat16` specialisation honours the capability threshold in
the same way.  Where narrowing is stable, each of `abs`, `sqrt`, `log`,
`log10`, `log2`, `exp`, `floor`, `ceil`, `round`, `sin`, `cos`, `rsqrt` (with
and without `__CUDACC__`) and `isinf` returns, on the host and on a device
below 800, the `float` function of the widened operand narrowed to the
format (for `isinf`, its classification), and on a device at 800 or above the
value built from the device intrinsic. -/
theorem bf16_honours_threshold (P : HalfPlatform) (M : HalfMath P) (laws : NarrowingLaws P)
    (x : matxHalf P) :
    HonoursThreshold (fun arch => abs_bf16 M arch x)
      (matxHalf.ofFloat32 (M.std .abs x.toFloat32)) (matxHalf.ofNative (M.intrinsic .habs x.x)) ∧
    HonoursThreshold (fun arch => sqrt_bf16 M arch x)
      (matxHalf.ofFloat32 (M.std .sqrt x.toFloat32)) (matxHalf.ofNative (M.intrinsic .hsqrt x.x)) ∧
    HonoursThreshold (fun arch => log_bf16 M arch x)
      (matxHalf.ofFloat32 (M.std .log x.toFloat32)) (matxHalf.ofNative (M.intrinsic .hlog x.x)) ∧
    HonoursThreshold (fun arch => log10_bf16 M arch x)
      (matxHalf.ofFloat32 (M.std .log10 x.toFloat32))
      (matxHalf.ofNative (M.intrinsic .hlog10 x.x)) ∧
    HonoursThreshold (fun arch => log2_bf16 M arch x)
      (matxHalf.ofFloat32 (M.std .log2 x.toFloat32)) (matxHalf.ofNative (M.intrinsic .hlog2 x.x)) ∧
    HonoursThreshold (fun arch => exp_bf16 M arch x)
      (matxHalf.ofFloat32 (M.std .exp x.toFloat32)) (matxHalf.ofNative (M.intrinsic .hexp x.x)) ∧
    HonoursThreshold (fun arch => floor_bf16 M arch x)
      (matxHalf.ofFloat32 (M.std .floor x.toFloat32))
      (matxHalf.ofNative (M.intrinsic .hfloor x.x)) ∧
    HonoursThreshold (fun arch => ceil_bf16 M arch x)
      (matxHalf.ofFloat32 (M.std .ceil x.toFloat32)) (matxHalf.ofNative (M.intrinsic .hceil x.x)) ∧
    HonoursThreshold (fun arch => round_bf16 M arch x)
      (matxHalf.ofFloat32 (M.std .round x.toFloat32))
      (matxHalf.ofNative (M.intrinsic .hrint x.x)) ∧
    HonoursThreshold (fun arch => sin_bf16 M arch x)
      (matxHalf.ofFloat32 (M.std .sin x.toFloat32)) (matxHalf.ofNative (M.intrinsic .hsin x.x)) ∧
    HonoursThreshold (fun arch => cos_bf16 M arch x)
      (matxHalf.ofFloat32 (M.std .cos x.toFloat32)) (matxHalf.ofNative (M.intrinsic .hcos x.x)) ∧
    HonoursThreshold (fun arch => rsqrt_bf16 M true arch x)
      (matxHalf.ofFloat32 (M.std .rsqrt x.toFloat32))
      (matxHalf.ofNative (M.intrinsic .hrsqrt x.x)) ∧
    HonoursThreshold (fun arch => rsqrt_bf16 M false arch x)
      (matxHalf.ofFloat32 (P.fdiv M.one (M.std .sqrt x.toFloat32)))
      (matxHalf.ofNative (M.intrinsic .hrsqrt x.x)) ∧
    HonoursThreshold (fun arch => isinf_bf16 M arch x)
      (if M.isinf x.toFloat32 then 1 else 0) (M.hisinf x.x) := by
  simp only [← matxHalf.ofNative_ofFloat laws, matxHalf.toFloat32]
  exact ⟨honoursThreshold_ite _ _, honoursThreshold_ite _ _, honoursThreshold_ite _ _,
    honoursThreshold_ite _ _, honoursThreshold_ite _ _, honoursThreshold_ite _ _,
    honoursThreshold_ite _ _, honoursThreshold_ite _ _, honoursThreshold_ite _ _,
    honoursThreshold_ite _ _, honoursThreshold_ite _ _, honoursThreshold_ite _ _,
    honoursThreshold_ite _ _, honoursThreshold_ite _ _⟩

/-- The threshold on the fixed-point platform, at the operand `1`. -/
theorem bf16_honours_threshold_witness :
    HonoursThreshold (fun arch => abs_bf16 fixedMath arch fixedOne)
      (matxHalf.ofFloat32 (fixedMath.std .abs fixedOne.toFloat32))
      (matxHalf.ofNative (fixedMath.intrinsic .habs fixedOne.x)) ∧
    HonoursThreshold (fun arch => sqrt_bf16 fixedMath arch fixedOne)
      (matxHalf.ofFloat32 (fixedMath.std .sqrt fixedOne.toFloat32))
      (matxHalf.ofNative (fixedMath.intrinsic .hsqrt fixedOne.x)) ∧
    HonoursThreshold (fun arch => log_bf16 fixedMath arch fixedOne)
      (matxHalf.ofFloat32 (fixedMath.std .log fixedOne.toFloat32))
      (matxHalf.ofNative (fixedMath.intrinsic .hlog fixedOne.x)) ∧
    HonoursThreshold (fun arch => log10_bf16 fixedMath arch fixedOne)
      (matxHalf.ofFloat32 (fixedMath.std .log10 fixedOne.toFloat32))
      (matxHalf.ofNative (fixedMath.intrinsic .hlog10 fixedOne.x)) ∧
    HonoursThreshold (fun arch => log2_bf16 fixedMath arch fixedOne)
      (matxHalf.ofFloat32 (fixedMath.std .log2 fixedOne.toFloat32))
      (matxHalf.ofNative (fixedMath.intrinsic .hlog2 fixedOne.x)) ∧
    HonoursThreshold (fun arch => exp_bf16 fixedMath arch fixedOne)
      (matxHalf.ofFloat32 (fixedMath.std .exp fixedOne.toFloat32))
      (matxHalf.ofNative (fixedMath.intrinsic .hexp fixedOne.x)) ∧
    HonoursThreshold (fun arch => floor_bf16 fixedMath arch fixedOne)
      (matxHalf.ofFloat32 (fixedMath.std .floor fixedOne.toFloat32))
      (matxHalf.ofNative (fixedMath.intrinsic .hfloor fixedOne.x)) ∧
    HonoursThreshold (fun arch => ceil_bf16 fixedMath arch fixedOne)
      (matxHalf.ofFloat32 (fixedMath.std .ceil fixedOne.toFloat32))
      (matxHalf.ofNative (fixedMath.intrinsic .hceil fixedOne.x)) ∧
    HonoursThreshold (fun arch => round_bf16 fixedMath arch fixedOne)
      (matxHalf.ofFloat32 (fixedMath.std .round fixedOne.toFloat32))
      (matxHalf.ofNative (fixedMath.intrinsic .hrint fixedOne.x)) ∧
    HonoursThreshold (fun arch => sin_bf16 fixedMath arch fixedOne)
      (matxHalf.ofFloat32 (fixedMath.std .sin fixedOne.toFloat32))
      (matxHalf.ofNative (fixedMath.intrinsic .hsin fixedOne.x)) ∧
    HonoursThreshold (fun arch => cos_bf16 fixedMath arch fixedOne)
      (matxHalf.ofFloat32 (fixedMath.std .cos fixedOne.toFloat32))
      (matxHalf.ofNative (fixedMath.intrinsic .hcos fixedOne.x)) ∧
    HonoursThreshold (fun arch => rsqrt_bf16 fixedMath true arch fixedOne)
      (matxHalf.ofFloat32 (fixedMath.std .rsqrt fixedOne.toFloat32))
      (matxHalf.ofNative (fixedMath.intrinsic .hrsqrt fixedOne.x)) ∧
    HonoursThreshold (fun arch => rsqrt_bf16 fixedMath false arch fixedOne)
      (matxHalf.ofFloat32 (fixedPlatform.fdiv fixedMath.one (fixedMath.std .sqrt fixedOne.toFloat32)))
      (matxHalf.ofNative (fixedMath.intrinsic .hrsqrt fixedOne.x)) ∧
    HonoursThreshold (fun arch => isinf_bf16 fixedMath arch fixedOne)
      (if fixedMath.isinf fixedOne.toFloat32 then 1 else 0) (fixedMath.hisinf fixedOne.x) :=
  bf16_honours_threshold fixedPlatform fixedMath fixedPlatform_narrowingLaws fixedOne

/-- C16: the functions without a device branch do not depend on the compilation
pass.  Where narrowing is stable, on every pass `arch` each of `tan`, `asin`,
`acos`, `atan`, `atan2`, `asinh`, `acosh`, `atanh`, `sinh`, `cosh` and `tanh`
returns the `float` function of the widened operands narrowed to the format,
an expression in which `arch` does not occur. -/
theorem no_hardware_path_context_independent (P : HalfPlatform) (M : HalfMath P)
    (laws : NarrowingLaws P) (arch : CudaArch) (x y : matxHalf P) :
    tan M arch x = matxHalf.ofFloat32 (M.std .tan x.toFloat32) ∧
    asin M arch x = matxHalf.ofFloat32 (M.std .asin x.toFloat32) ∧
    acos M arch x = matxHalf.ofFloat32 (M.std .acos x.toFloat32) ∧
    atan M arch x = matxHalf.ofFloat32 (M.std .atan x.toFloat32) ∧
    atan2 M arch x y = matxHalf.ofFloat32 (M.atan2 x.toFloat32 y.toFloat32) ∧
    asinh M arch x = matxHalf.ofFloat32 (M.std .asinh x.toFloat32) ∧
    acosh M arch x = matxHalf.ofFloat32 (M.std .acosh x.toFloat32) ∧
    atanh M arch x = matxHalf.ofFloat32 (M.std .atanh x.toFloat32) ∧
    sinh M arch x = matxHalf.ofFloat32 (M.std .sinh x.toFloat32) ∧
    cosh M arch x = matxHalf.ofFloat32 (M.std .cosh x.toFloat32) ∧
    tanh M arch x = matxHalf.ofFloat32 (M.std .tanh x.toFloat32) := by
  simp only [← matxHalf.ofNative_ofFloat laws, matxHalf.toFloat32]
  exact ⟨rfl, rfl, rfl, rfl, rfl, rfl, rfl, rfl, rfl, rfl, rfl⟩

/-- The independence on the fixed-point platform, on a device of capability 900,
at the operands `0` and `1`. -/
theorem no_hardware_path_context_independent_witness :
    tan fixedMath (some 900) fixedZero
      = matxHalf.ofFloat32 (fixedMath.std .tan fixedZero.toFloat32) ∧
    asin fixedMath (some 900) fixedZero
      = matxHalf.ofFloat32 (fixedMath.std .asin fixedZero.toFloat32) ∧
    acos fixedMath (some 900) fixedZero
      = matxHalf.ofFloat32 (fixedMath.std .acos fixedZero.toFloat32) ∧
    atan fixedMath (some 900) fixedZero
      = matxHalf.ofFloat32 (fixedMath.std .atan fixedZero.toFloat32) ∧
    atan2 fixedMath (some 900) fixedZero fixedOne
      = matxHalf.ofFloat32 (fixedMath.atan2 fixedZero.toFloat32 fixedOne.toFloat32) ∧
    asinh fixedMath (some 900) fixedZero
      = matxHalf.ofFloat32 (fixedMath.std .asinh fixedZero.toFloat32) ∧
    acosh fixedMath (some 900) fixedZero
      = matxHalf.ofFloat32 (fixedMath.std .acosh fixedZero.toFloat32) ∧
    atanh fixedMath (some 900) fixedZero
      = matxHalf.ofFloat32 (fixedMath.std .atanh fixedZero.toFloat32) ∧
    sinh fixedMath (some 900) fixedZero
      = matxHalf.ofFloat32 (fixedMath.std .sinh fixedZero.toFloat32) ∧
    cosh fixedMath (some 900) fixedZero
      = matxHalf.ofFloat32 (fixedMath.std .cosh fixedZero.toFloat32) ∧
    tanh fixedMath (some 900) fixedZero
      = matxHalf.ofFloat32 (fixedMath.std .tanh fixedZero.toFloat32) :=
  no_hardware_path_context_independent fixedPlatform fixedMath fixedPlatform_narrowingLaws
    (some 900) fixedZero fixedOne

/-! ## The binary operators on the two paths -/

/-- C17: the two paths of the wrapper/wrapper operators, and division by zero.
On a platform with the `NarrowingLaws` and the `ArithmeticLaws`, for all
wrapper values `a`, `b` and each of `+`, `-`, `*`, `/`: on the host the result
is the `float` operation on the widened operands, narrowed; on the device it
is the native 16-bit operation on the stored values; and on every pass
`matxHalf<T>(1.0) / matxHalf<T>(0.0)` is a value on which `isinf` (the primary
template and the `__nv_bfloat16` specialisation) is not zero. -/
theorem binary_operators_two_paths (P : HalfPlatform) (M : HalfMath P) (zero inf : P.F)
    (nl : NarrowingLaws P) (al : ArithmeticLaws P M zero inf) (a b : matxHalf P) :
    (operatorAdd none a b = matxHalf.ofFloat32 (P.fadd a.toFloat32 b.toFloat32) ∧
      operatorSub none a b = matxHalf.ofFloat32 (P.fsub a.toFloat32 b.toFloat32) ∧
      operatorMul none a b = matxHalf.ofFloat32 (P.fmul a.toFloat32 b.toFloat32) ∧
      operatorDiv none a b = matxHalf.ofFloat32 (P.fdiv a.toFloat32 b.toFloat32)) ∧
    (∀ n : Nat,
      operatorAdd (some n) a b = ⟨P.hadd a.x b.x⟩ ∧
      operatorSub (some n) a b = ⟨P.hsub a.x b.x⟩ ∧
      operatorMul (some n) a b = ⟨P.hmul a.x b.x⟩ ∧
      operatorDiv (some n) a b = ⟨P.hdiv a.x b.x⟩) ∧
    (∀ arch : CudaArch,
      isinf M arch (operatorDiv arch (matxHalf.ofFloat32 M.one) (matxHalf.ofFloat32 zero)) ≠ 0 ∧
      isinf_bf16 M arch
        (operatorDiv arch (matxHalf.ofFloat32 M.one) (matxHalf.ofFloat32 zero)) ≠ 0) := by
  have hdev : ∀ n : Nat,
      operatorDiv (some n) (matxHalf.ofFloat32 M.one) (matxHalf.ofFloat32 zero)
        = (⟨P.ofFloat inf⟩ : matxHalf P) := by
    intro n
    simp only [operatorDiv, matxHalf.ofNative, matxHalf.ofFloat32, matxHalf.construct,
      Option.isSome_some, if_true, id]
    rw [al.hdiv_one_zero, nl.ofFloat_toFloat_ofFloat]
  have hhost : operatorDiv none (matxHalf.ofFloat32 M.one) (matxHalf.ofFloat32 zero)
      = (⟨P.ofFloat inf⟩ : matxHalf P) := by
    simp only [operatorDiv, matxHalf.ofNative, matxHalf.ofFloat32, matxHalf.construct,
      Option.isSome_none, Bool.false_eq_true, if_false, id]
    rw [al.toFloat_one, al.toFloat_zero, al.fdiv_one_zero, nl.ofFloat_toFloat_ofFloat]
  refine ⟨⟨?_, ?_, ?_, ?_⟩, fun n => ⟨?_, ?_, ?_, ?_⟩, fun arch => ?_⟩
  · simp only [operatorAdd, Option.isSome_none, Bool.false_eq_true, if_false,
      matxHalf.ofNative_ofFloat nl]
  · simp only [operatorSub, Option.isSome_none, Bool.false_eq_true, if_false,
      matxHalf.ofNative_ofFloat nl]
  · simp only [operatorMul, Option.isSome_none, Bool.false_eq_true, if_false,
      matxHalf.ofNative_ofFloat nl, matxHalf.toFloat32]
  · simp only [operatorDiv, Option.isSome_none, Bool.false_eq_true, if_false,
      matxHalf.ofNative_ofFloat nl, matxHalf.toFloat32]
  · simp only [operatorAdd, Option.isSome_some, if_true, matxHalf.ofNative,
      matxHalf.construct, al.hadd_stable]
  · simp only [operatorSub, Option.isSome_some, if_true, matxHalf.ofNative,
      matxHalf.construct, al.hsub_stable]
  · simp only [operatorMul, Option.isSome_some, if_true, matxHalf.ofNative,
      matxHalf.construct, al.hmul_stable]
  · simp only [operatorDiv, Option.isSome_some, if_true, matxHalf.ofNative,
      matxHalf.construct, al.hdiv_stable]
  · cases arch with
    | none =>
      rw [hhost]
      simp [isinf, isinf_bf16, cudaArchValue, al.toFloat_inf, al.isinf_inf]
    | some n =>
      rw [hdev n]
      refine ⟨by simpa [isinf] using al.hisinf_inf, ?_⟩
      by_cases h : 800 ≤ n
      · simpa [isinf_bf16, cudaArchValue, h] using al.hisinf_inf
      · simp [isinf_bf16, cudaArchValue, h, al.toFloat_inf, al.isinf_inf]

/-- The two paths and the division by zero on the fixed-point platform, at
`a = 1` and `b = 0`. -/
theorem binary_operators_two_paths_witness :
    (operatorAdd none fixedOne fixedZero
        = matxHalf.ofFloat32 (fixedPlatform.fadd fixedOne.toFloat32 fixedZero.toFloat32) ∧
      operatorSub none fixedOne fixedZero
        = matxHalf.ofFloat32 (fixedPlatform.fsub fixedOne.toFloat32 fixedZero.toFloat32) ∧
      operatorMul none fixedOne fixedZero
        = matxHalf.ofFloat32 (fixedPlatform.fmul fixedOne.toFloat32 fixedZero.toFloat32) ∧
      operatorDiv none fixedOne fixedZero
        = matxHalf.ofFloat32 (fixedPlatform.fdiv fixedOne.toFloat32 fixedZero.toFloat32)) ∧
    (∀ n : Nat,
      operatorAdd (some n) fixedOne fixedZero = ⟨fixedPlatform.hadd fixedOne.x fixedZero.x⟩ ∧
      operatorSub (some n) fixedOne fixedZero = ⟨fixedPlatform.hsub fixedOne.x fixedZero.x⟩ ∧
      operatorMul (some n) fixedOne fixedZero = ⟨fixedPlatform.hmul fixedOne.x fixedZero.x⟩ ∧
      operatorDiv (some n) fixedOne fixedZero = ⟨fixedPlatform.hdiv fixedOne.x fixedZero.x⟩) ∧
    (∀ arch : CudaArch,
      isinf fixedMath arch
        (operatorDiv arch (matxHalf.ofFloat32 fixedMath.one) (matxHalf.ofFloat32 (.fin 0))) ≠ 0 ∧
      isinf_bf16 fixedMath arch
        (operatorDiv arch (matxHalf.ofFloat32 fixedMath.one) (matxHalf.ofFloat32 (.fin 0))) ≠ 0) :=
  binary_operators_two_paths fixedPlatform fixedMath (.fin 0) (.inf false)
    fixedPlatform_narrowingLaws fixedPlatform_arithmeticLaws fixedOne fixedZero

end matx
